import Mathlib

/-!
# Verification of the filament-flow jam-detection engine

Shallow embedding of `FilamentMotionSensor` (source file: the canonical
revision with dual hard/soft streak detection, grace period and
minimum-advance gating; header `FilamentMotionSensor.h`).

Modelling decisions:
* `float` values are modelled as exact rationals (`ℚ`); the claims under
  study are control-flow properties that do not depend on rounding.
* Arduino `unsigned long` (32-bit) timestamps are modelled as `Nat`;
  the wrap-around subtraction `a - b` on `unsigned long` is modelled
  explicitly by `u32sub`.
* The external monotonic clock `millis()` is threaded through every
  operation as an explicit `now : Nat` argument.
* The `samples[MAX_SAMPLES]` array is a `List` of length `MAX_SAMPLES`;
  a C++ write through an out-of-range index (undefined behaviour) is
  modelled by `List.set`, which leaves the list unchanged.
* `isJammed` is declared `const` in C++ but mutates `mutable` fields;
  it is modelled as a function returning `Bool × SensorState`.
-/

namespace FilamentSensor

/-- `MAX_SAMPLES = 20` ring-buffer capacity from the header. -/
def MAX_SAMPLES : Nat := 20

/-- Modulus of Arduino's 32-bit `unsigned long`. -/
def U32MOD : Nat := 4294967296

/-- `static const unsigned long INVALID_SAMPLE_TIMESTAMP = ~0UL;` -/
def INVALID_SAMPLE_TIMESTAMP : Nat := U32MOD - 1

/-- `a - b` on `unsigned long`: wraps modulo `2^32` when `b > a`.
For `a, b < 2^32` this equals `(a + 2^32 - b) % 2^32`. -/
def u32sub (a b : Nat) : Nat := if b ≤ a then a - b else a + U32MOD - b

/-- `enum FilamentTrackingMode`. -/
inductive FilamentTrackingMode
  | cumulative
  | windowed
  | ewma
deriving DecidableEq, Repr

/-- `struct FilamentSample`. -/
structure FilamentSample where
  timestampMs : Nat
  expectedMm : ℚ
  actualMm : ℚ
deriving DecidableEq, Repr

/-- A sample slot holding all zeroes (the value `reset()` writes). -/
def zeroSample : FilamentSample := ⟨0, 0, 0⟩

/-- The fields of class `FilamentMotionSensor`, including the `mutable`
jam-hysteresis fields updated by the `const` method `isJammed`. -/
structure SensorState where
  trackingMode : FilamentTrackingMode
  windowSizeMs : Nat
  ewmaAlpha : ℚ
  initialized : Bool
  lastExpectedUpdateMs : Nat
  baselinePositionMm : ℚ
  expectedPositionMm : ℚ
  sensorDistanceMm : ℚ
  sampleCount : Nat
  nextSampleIndex : Nat
  samples : List FilamentSample
  ewmaExpectedMm : ℚ
  ewmaActualMm : ℚ
  ewmaLastExpectedMm : ℚ
  ewmaLastActualMm : ℚ
  lastWindowDeficitMm : ℚ
  lastDeficitTimestampMs : Nat
  hardJamStartMs : Nat
  softJamStartMs : Nat
  hardJamAccumExpectedMm : ℚ
  hardJamAccumActualMm : ℚ
  hardJamLastSampleMs : Nat
  softJamAccumExpectedMm : ℚ
  softJamAccumActualMm : ℚ
  softJamLastSampleMs : Nat
deriving DecidableEq, Repr

/-- `FilamentMotionSensor::reset()`.  `lastExpectedUpdateMs = millis()`
is modelled by the explicit clock argument `now`. -/
def reset (s : SensorState) (now : Nat) : SensorState :=
  { s with
    initialized := false
    lastExpectedUpdateMs := now
    baselinePositionMm := 0
    expectedPositionMm := 0
    sensorDistanceMm := 0
    sampleCount := 0
    nextSampleIndex := 0
    samples := List.replicate MAX_SAMPLES zeroSample
    ewmaExpectedMm := 0
    ewmaActualMm := 0
    ewmaLastExpectedMm := 0
    ewmaLastActualMm := 0
    lastWindowDeficitMm := 0
    lastDeficitTimestampMs := 0
    hardJamStartMs := 0
    softJamStartMs := 0
    hardJamAccumExpectedMm := 0
    hardJamAccumActualMm := 0
    hardJamLastSampleMs := INVALID_SAMPLE_TIMESTAMP
    softJamAccumExpectedMm := 0
    softJamAccumActualMm := 0
    softJamLastSampleMs := INVALID_SAMPLE_TIMESTAMP }

/-- The constructor `FilamentMotionSensor()`: windowed mode, a 5 s
window, `ewmaAlpha = 0.3`, then `reset()`. -/
def mkSensor (now : Nat) : SensorState :=
  reset
    { trackingMode := .windowed
      windowSizeMs := 5000
      ewmaAlpha := 3/10
      initialized := false
      lastExpectedUpdateMs := 0
      baselinePositionMm := 0
      expectedPositionMm := 0
      sensorDistanceMm := 0
      sampleCount := 0
      nextSampleIndex := 0
      samples := List.replicate MAX_SAMPLES zeroSample
      ewmaExpectedMm := 0
      ewmaActualMm := 0
      ewmaLastExpectedMm := 0
      ewmaLastActualMm := 0
      lastWindowDeficitMm := 0
      lastDeficitTimestampMs := 0
      hardJamStartMs := 0
      softJamStartMs := 0
      hardJamAccumExpectedMm := 0
      hardJamAccumActualMm := 0
      hardJamLastSampleMs := INVALID_SAMPLE_TIMESTAMP
      softJamAccumExpectedMm := 0
      softJamAccumActualMm := 0
      softJamLastSampleMs := INVALID_SAMPLE_TIMESTAMP }
    now

/-- `FilamentMotionSensor::setTrackingMode`. -/
def setTrackingMode (s : SensorState) (mode : FilamentTrackingMode)
    (windowMs : Nat) (alpha : ℚ) : SensorState :=
  let a := alpha
  let a := if a < 1/100 then (1/100 : ℚ) else a
  let a := if a > 1 then (1 : ℚ) else a
  { s with trackingMode := mode, windowSizeMs := windowMs, ewmaAlpha := a }

/-- The index expression `(nextSampleIndex - sampleCount + i + MAX_SAMPLES)
% MAX_SAMPLES` of the C++ (computed in `int` arithmetic, non-negative for
every state the program reaches). -/
def ringIdx (next count i : Nat) : Nat :=
  (((next : Int) - count + i + MAX_SAMPLES) % (MAX_SAMPLES : Int)).toNat

/-- The index expression `(nextSampleIndex - 1 + MAX_SAMPLES) % MAX_SAMPLES`
used for the most recent sample. -/
def mostRecentIdx (next : Nat) : Nat :=
  (((next : Int) - 1 + MAX_SAMPLES) % (MAX_SAMPLES : Int)).toNat

/-- `FilamentMotionSensor::pruneOldSamples`, the compaction loop:
iterates `i = 0 .. sampleCount-1` over the buffer in age order, keeps
samples with `timestampMs >= cutoffTime`, and copies a kept sample to
`ringIdx next count newCount` when `newCount ≠ i`; returns the mutated
array together with `newCount`.  The loop reads from the array it is
mutating, exactly as the C++ does. -/
def pruneLoop (samples : List FilamentSample) (next count cutoff : Nat) :
    List FilamentSample × Nat :=
  (List.range count).foldl
    (fun acc i =>
      let idx := ringIdx next count i
      let smp := acc.1.getD idx zeroSample
      if cutoff ≤ smp.timestampMs then
        if acc.2 ≠ i then
          (acc.1.set (ringIdx next count acc.2) smp, acc.2 + 1)
        else
          (acc.1, acc.2 + 1)
      else
        (acc.1, acc.2))
    (samples, 0)

/-- `FilamentMotionSensor::pruneOldSamples()`.  `cutoffTime = currentTime -
windowSizeMs` is an `unsigned long` subtraction.  After the loop the C++
sets `nextSampleIndex = sampleCount` when any samples remain, else 0. -/
def pruneOldSamples (s : SensorState) (now : Nat) : SensorState :=
  let cutoffTime := u32sub now s.windowSizeMs
  let pr := pruneLoop s.samples s.nextSampleIndex s.sampleCount cutoffTime
  { s with
    samples := pr.1
    sampleCount := pr.2
    nextSampleIndex := if pr.2 > 0 then pr.2 else 0 }

/-- `FilamentMotionSensor::addSample`.  Prunes first, then writes the new
sample at `nextSampleIndex` (a write at an out-of-range index is C++
undefined behaviour; `List.set` models it as a lost write), then advances
`nextSampleIndex` modulo `MAX_SAMPLES` and bumps `sampleCount` while below
capacity. -/
def addSample (s : SensorState) (expectedDeltaMm actualDeltaMm : ℚ)
    (now : Nat) : SensorState :=
  let s := pruneOldSamples s now
  let s := { s with
    samples := s.samples.set s.nextSampleIndex
      ⟨now, expectedDeltaMm, actualDeltaMm⟩ }
  { s with
    nextSampleIndex := (s.nextSampleIndex + 1) % MAX_SAMPLES
    sampleCount :=
      if s.sampleCount < MAX_SAMPLES then s.sampleCount + 1 else s.sampleCount }

/-- `FilamentMotionSensor::updateExpectedPosition`.  Order of the source:
initialization branch; retraction resync (`totalExtrusionMm <
expectedPositionMm`, which also sets `ewmaLastActualMm = sensorDistanceMm`
after `sensorDistanceMm` was just zeroed, hence 0); `expectedDelta`
computed against the pre-call `expectedPositionMm` (the retraction branch
does not modify it); telemetry-gap grace reset (`> 2000 ms` and positive
delta); windowed/EWMA delta accounting; finally `expectedPositionMm :=
totalExtrusionMm`. -/
def updateExpectedPosition (s : SensorState) (totalExtrusionMm : ℚ)
    (now : Nat) : SensorState :=
  if s.initialized = false then
    { s with
      initialized := true
      lastExpectedUpdateMs := now
      baselinePositionMm := totalExtrusionMm
      expectedPositionMm := totalExtrusionMm
      sensorDistanceMm := 0
      ewmaLastExpectedMm := totalExtrusionMm
      ewmaLastActualMm := 0
      ewmaExpectedMm := 0
      ewmaActualMm := 0 }
  else
    let s :=
      if totalExtrusionMm < s.expectedPositionMm then
        { s with
          lastExpectedUpdateMs := now
          baselinePositionMm := totalExtrusionMm
          sensorDistanceMm := 0
          sampleCount := 0
          nextSampleIndex := 0
          ewmaLastExpectedMm := totalExtrusionMm
          ewmaLastActualMm := 0
          ewmaExpectedMm := 0
          ewmaActualMm := 0 }
      else s
    let expectedDelta := totalExtrusionMm - s.expectedPositionMm
    let s :=
      if u32sub now s.lastExpectedUpdateMs > 2000 ∧ expectedDelta > 1/100 then
        { s with lastExpectedUpdateMs := now }
      else s
    let s :=
      if s.trackingMode = FilamentTrackingMode.windowed ∧ expectedDelta > 1/100 then
        addSample s expectedDelta 0 now
      else if s.trackingMode = FilamentTrackingMode.ewma ∧ expectedDelta > 1/100 then
        let newExpected := totalExtrusionMm - s.ewmaLastExpectedMm
        { s with
          ewmaExpectedMm :=
            s.ewmaAlpha * newExpected + (1 - s.ewmaAlpha) * s.ewmaExpectedMm
          ewmaLastExpectedMm := totalExtrusionMm }
      else s
    { s with expectedPositionMm := totalExtrusionMm }

/-- `FilamentMotionSensor::addSensorPulse`. -/
def addSensorPulse (s : SensorState) (mmPerPulse : ℚ) : SensorState :=
  if mmPerPulse ≤ 0 ∨ s.initialized = false then s
  else
    let s := { s with sensorDistanceMm := s.sensorDistanceMm + mmPerPulse }
    let s :=
      if s.trackingMode = FilamentTrackingMode.windowed ∧ s.sampleCount > 0 then
        let idx := mostRecentIdx s.nextSampleIndex
        if idx < s.sampleCount then
          let smp := s.samples.getD idx zeroSample
          { s with
            samples := s.samples.set idx
              { smp with actualMm := smp.actualMm + mmPerPulse } }
        else s
      else s
    if s.trackingMode = FilamentTrackingMode.ewma then
      { s with
        ewmaActualMm :=
          s.ewmaAlpha * mmPerPulse + (1 - s.ewmaAlpha) * s.ewmaActualMm }
    else s

/-- `FilamentMotionSensor::getWindowedDistances`: sums expected and actual
over the buffered samples in age order. -/
def getWindowedDistances (s : SensorState) : ℚ × ℚ :=
  (List.range s.sampleCount).foldl
    (fun acc i =>
      let smp := s.samples.getD (ringIdx s.nextSampleIndex s.sampleCount i) zeroSample
      (acc.1 + smp.expectedMm, acc.2 + smp.actualMm))
    (0, 0)

/-- `FilamentMotionSensor::getExpectedDistance`. -/
def getExpectedDistance (s : SensorState) : ℚ :=
  if s.initialized = false then 0
  else
    match s.trackingMode with
    | .cumulative => s.expectedPositionMm - s.baselinePositionMm
    | .windowed => (getWindowedDistances s).1
    | .ewma => s.ewmaExpectedMm

/-- `FilamentMotionSensor::getSensorDistance`. -/
def getSensorDistance (s : SensorState) : ℚ :=
  if s.initialized = false then 0
  else
    match s.trackingMode with
    | .cumulative => s.sensorDistanceMm
    | .windowed => (getWindowedDistances s).2
    | .ewma => s.ewmaActualMm

/-- `FilamentMotionSensor::isInitialized`. -/
def isInitialized (s : SensorState) : Bool := s.initialized

/-- `FilamentMotionSensor::getDeficit`. -/
def getDeficit (s : SensorState) : ℚ :=
  if s.initialized = false then 0
  else
    let deficit := getExpectedDistance s - getSensorDistance s
    if deficit > 0 then deficit else 0

/-- `FilamentMotionSensor::getFlowRatio`. -/
def getFlowRatio (s : SensorState) : ℚ :=
  if s.initialized = false then 0
  else if getExpectedDistance s ≤ 0 then 0
  else
    let ratio := getSensorDistance s / getExpectedDistance s
    let ratio := if ratio > 3/2 then (3/2 : ℚ) else ratio
    if ratio < 0 then 0 else ratio

/-! ## The jam classifier `isJammed`

The body of `FilamentMotionSensor::isJammed` is split into helper
definitions following the blocks of the source; early `return true`
is modelled by the branch structure (once a block returns, the blocks
after it do not run). -/

/-- `MIN_EXPECTED_DELTA = 0.05f`: the minimum-advance floor. -/
def MIN_EXPECTED_DELTA : ℚ := 5/100

/-- `HARD_PASS_RATIO_THRESHOLD = 0.10f`. -/
def HARD_PASS_RATIO_THRESHOLD : ℚ := 1/10

/-- `MIN_SOFT_DEFICIT_MM = 0.5f`. -/
def MIN_SOFT_DEFICIT_MM : ℚ := 1/2

/-- `latestSampleIndex`: `-1` when the buffer is empty, otherwise
`(nextSampleIndex - 1 + MAX_SAMPLES) % MAX_SAMPLES`. -/
def latestSampleIndexInt (s : SensorState) : Int :=
  if s.sampleCount > 0 then ((s.nextSampleIndex : Int) - 1 + MAX_SAMPLES) % (MAX_SAMPLES : Int)
  else -1

/-- `latestExpected`: the expected delta of the most recent sample, `0.0f`
when the buffer is empty (or the index is out of the array, which the C++
guards against). -/
def latestExpectedOf (s : SensorState) : ℚ :=
  let idx := latestSampleIndexInt s
  if 0 ≤ idx ∧ idx < (MAX_SAMPLES : Int) then
    (s.samples.getD idx.toNat zeroSample).expectedMm
  else 0

/-- The deficit-growth bookkeeping block: stores `windowDeficit` (floored
at zero) into `lastWindowDeficitMm` and the poll time into
`lastDeficitTimestampMs`.  The local `deficitGrowthRateMmPerSec` and
`passingRatio` values of the source are computed but never used, so they
have no observable effect to model. -/
def noteDeficit (s : SensorState) (now : Nat) : SensorState :=
  let windowDeficit := getExpectedDistance s - getSensorDistance s
  let windowDeficit := if windowDeficit < 0 then (0 : ℚ) else windowDeficit
  { s with lastWindowDeficitMm := windowDeficit, lastDeficitTimestampMs := now }

/-- The hard-jam accumulation block: when the latest sample carries a
timestamp that is valid and was not consumed before, add its expected and
actual deltas to the hard accumulators and remember its timestamp. -/
def accumHard (s : SensorState) : SensorState :=
  let idx := latestSampleIndexInt s
  if 0 ≤ idx ∧ idx < (MAX_SAMPLES : Int) then
    let smp := s.samples.getD idx.toNat zeroSample
    if smp.timestampMs ≠ INVALID_SAMPLE_TIMESTAMP ∧ smp.timestampMs ≠ s.hardJamLastSampleMs then
      { s with
        hardJamAccumExpectedMm := s.hardJamAccumExpectedMm + smp.expectedMm
        hardJamAccumActualMm := s.hardJamAccumActualMm + smp.actualMm
        hardJamLastSampleMs := smp.timestampMs }
    else s
  else s

/-- The soft-jam accumulation block (independent state from the hard one). -/
def accumSoft (s : SensorState) : SensorState :=
  let idx := latestSampleIndexInt s
  if 0 ≤ idx ∧ idx < (MAX_SAMPLES : Int) then
    let smp := s.samples.getD idx.toNat zeroSample
    if smp.timestampMs ≠ INVALID_SAMPLE_TIMESTAMP ∧ smp.timestampMs ≠ s.softJamLastSampleMs then
      { s with
        softJamAccumExpectedMm := s.softJamAccumExpectedMm + smp.expectedMm
        softJamAccumActualMm := s.softJamAccumActualMm + smp.actualMm
        softJamLastSampleMs := smp.timestampMs }
    else s
  else s

/-- `hardAccumRatio`: 1.0 when nothing is accumulated. -/
def hardRatioOf (s : SensorState) : ℚ :=
  if s.hardJamAccumExpectedMm > 0 then s.hardJamAccumActualMm / s.hardJamAccumExpectedMm
  else 1

/-- `softAccumRatio`: 1.0 when nothing is accumulated. -/
def softRatioOf (s : SensorState) : ℚ :=
  if s.softJamAccumExpectedMm > 0 then s.softJamAccumActualMm / s.softJamAccumExpectedMm
  else 1

/-- `softAccumDeficit`, floored at zero. -/
def softDeficitOf (s : SensorState) : ℚ :=
  let d := s.softJamAccumExpectedMm - s.softJamAccumActualMm
  if d < 0 then 0 else d

/-- Clearing of the hard streak state (the ratio-recovered branch). -/
def clearHard (s : SensorState) : SensorState :=
  { s with
    hardJamStartMs := 0
    hardJamAccumExpectedMm := 0
    hardJamAccumActualMm := 0
    hardJamLastSampleMs := INVALID_SAMPLE_TIMESTAMP }

/-- Clearing of the soft streak state (the ratio-recovered branch). -/
def clearSoft (s : SensorState) : SensorState :=
  { s with
    softJamStartMs := 0
    softJamAccumExpectedMm := 0
    softJamAccumActualMm := 0
    softJamLastSampleMs := INVALID_SAMPLE_TIMESTAMP }

/-- The soft-jam block of `isJammed`: runs only when the hard block did
not return.  `ratioThr` and `softJamTimeN` are the already-defaulted
parameter values (the cast `(unsigned long)softJamTimeMs` of a positive
`int` is the identity). -/
def softPhase (s : SensorState) (ratioThr : ℚ) (softJamTimeN now : Nat) :
    Bool × SensorState :=
  let s := accumSoft s
  if softRatioOf s < ratioThr then
    let s := if s.softJamStartMs = 0 then { s with softJamStartMs := now } else s
    if MIN_SOFT_DEFICIT_MM ≤ softDeficitOf s ∧ softJamTimeN ≤ u32sub now s.softJamStartMs then
      (true, s)
    else
      (false, s)
  else
    (false, clearSoft s)

/-- The hard-jam block of `isJammed`, followed by the soft block when it
does not return true. -/
def hardPhase (s : SensorState) (ratioThr : ℚ) (softJamTimeN hardJamTimeN now : Nat) :
    Bool × SensorState :=
  let s := accumHard s
  if hardRatioOf s < HARD_PASS_RATIO_THRESHOLD then
    let s := if s.hardJamStartMs = 0 then { s with hardJamStartMs := now } else s
    if hardJamTimeN ≤ u32sub now s.hardJamStartMs then
      (true, s)
    else
      softPhase s ratioThr softJamTimeN now
  else
    softPhase (clearHard s) ratioThr softJamTimeN now

/-- The `expectedAdvancing == false` branch: clear all hard and soft
streak state. -/
def clearAllStreak (s : SensorState) : SensorState := clearSoft (clearHard s)

/-- The body of `isJammed` after the defensive gates: deficit
bookkeeping, minimum-advance gating, then the hard and soft blocks.
(The locals `MIN_HARD_EXPECTED_MM` and `MIN_SOFT_EXPECTED_MM`, derived
from `hardJamThresholdMm`, are computed but never read in this revision
of the source, so `hardJamThresholdMm` has no observable effect.) -/
def jamDetect (s : SensorState) (ratioThr : ℚ) (softJamTimeN hardJamTimeN now : Nat) :
    Bool × SensorState :=
  let s := noteDeficit s now
  if MIN_EXPECTED_DELTA ≤ latestExpectedOf s then
    hardPhase s ratioThr softJamTimeN hardJamTimeN now
  else
    (false, clearAllStreak s)

/-- `FilamentMotionSensor::isJammed(ratioThreshold, hardJamThresholdMm,
softJamTimeMs, hardJamTimeMs, checkIntervalMs, gracePeriodMs)`.
Returns the verdict together with the post-call state of the `mutable`
fields. -/
def isJammed (s : SensorState) (ratioThreshold hardJamThresholdMm : ℚ)
    (softJamTimeMs hardJamTimeMs checkIntervalMs : Int)
    (gracePeriodMs now : Nat) : Bool × SensorState :=
  if s.initialized = false ∨ checkIntervalMs ≤ 0 then
    (false, { s with hardJamStartMs := 0, softJamStartMs := 0 })
  else
    let ratioThr := if ratioThreshold ≤ 0 then (1/4 : ℚ) else ratioThreshold
    let ratioThr := if ratioThr > 1 then (1 : ℚ) else ratioThr
    let softJamTimeN := (if softJamTimeMs ≤ 0 then 10000 else softJamTimeMs).toNat
    let hardJamTimeN := (if hardJamTimeMs ≤ 0 then 5000 else hardJamTimeMs).toNat
    if gracePeriodMs > 0 ∧ u32sub now s.lastExpectedUpdateMs < gracePeriodMs then
      (false, { s with hardJamStartMs := 0, softJamStartMs := 0 })
    else
      let _ := hardJamThresholdMm
      jamDetect s ratioThr softJamTimeN hardJamTimeN now

/-! ## Operation traces

A trace of calls against one tracker instance, used to state scenario
properties and reachability arguments. -/

/-- One public operation of the tracker/classifier pair. -/
inductive Op
  | update (totalExtrusionMm : ℚ) (now : Nat)
  | pulse (mmPerPulse : ℚ)
  | setMode (mode : FilamentTrackingMode) (windowMs : Nat) (alpha : ℚ)
  | doReset (now : Nat)
  | poll (ratioThreshold hardJamThresholdMm : ℚ)
      (softJamTimeMs hardJamTimeMs checkIntervalMs : Int)
      (gracePeriodMs now : Nat)
deriving Repr

/-- The state after one operation. -/
def step (s : SensorState) : Op → SensorState
  | .update mm now => updateExpectedPosition s mm now
  | .pulse mm => addSensorPulse s mm
  | .setMode m w a => setTrackingMode s m w a
  | .doReset now => reset s now
  | .poll rt hjt sj hj ci gp now => (isJammed s rt hjt sj hj ci gp now).2

/-- The state after a list of operations. -/
def runOps (s : SensorState) (ops : List Op) : SensorState :=
  ops.foldl step s

/-- The verdicts of the `poll` operations of a trace, in order. -/
def pollResults (s : SensorState) : List Op → List Bool
  | [] => []
  | op :: ops =>
    match op with
    | .poll rt hjt sj hj ci gp now =>
        (isJammed s rt hjt sj hj ci gp now).1 :: pollResults (step s op) ops
    | _ => pollResults (step s op) ops

/-! ## Concrete scenario traces

All traces start the clock at `traceBase` ms of uptime so that the
early-uptime wrap-around of `cutoffTime = currentTime - windowSizeMs`
(an `unsigned long` subtraction) plays no role. -/

def traceBase : Nat := 100000

/-- The hard-jam scenario of the claim: `hardJamTimeMs = 2000`,
`checkIntervalMs = 1000`, 20 mm/s commanded extrusion, zero sensor
pulses, polls every second. -/
def c1Ops : List Op :=
  [ .update 0 traceBase
  , .update 20 (traceBase+1000), .poll (1/4) 10 10000 2000 1000 0 (traceBase+1500)
  , .update 40 (traceBase+2000), .poll (1/4) 10 10000 2000 1000 0 (traceBase+2500)
  , .update 60 (traceBase+3000), .poll (1/4) 10 10000 2000 1000 0 (traceBase+3500)
  , .update 80 (traceBase+4000), .poll (1/4) 10 10000 2000 1000 0 (traceBase+4500)
  , .update 100 (traceBase+5000), .poll (1/4) 10 10000 2000 1000 0 (traceBase+5500) ]

/-- The transient-spike scenario of the claim: one 1-second interval at
15 % flow (3 mm against 20 mm commanded) surrounded by normal-flow
intervals, `ratioThreshold = 0.25`, `softJamTimeMs = 3000`. -/
def c2Ops : List Op :=
  [ .update 0 traceBase
  , .update 20 (traceBase+1000), .pulse 20, .poll (1/4) 10 3000 2000 1000 0 (traceBase+1500)
  , .update 40 (traceBase+2000), .pulse 20, .poll (1/4) 10 3000 2000 1000 0 (traceBase+2500)
  , .update 60 (traceBase+3000), .pulse 3, .poll (1/4) 10 3000 2000 1000 0 (traceBase+3500)
  , .update 80 (traceBase+4000), .pulse 20, .poll (1/4) 10 3000 2000 1000 0 (traceBase+4500)
  , .update 100 (traceBase+5000), .pulse 20, .poll (1/4) 10 3000 2000 1000 0 (traceBase+5500)
  , .update 120 (traceBase+6000), .pulse 20, .poll (1/4) 10 3000 2000 1000 0 (traceBase+6500) ]

/-- Trace refuting the claim that a grace period follows every call to
`updateExpectedPosition`: normal (non-retraction, gap ≤ 2000 ms) updates
do not refresh `lastExpectedUpdateMs`, so the second poll runs 300 ms
after the last update with `gracePeriodMs = 500` and still reports a
jam. -/
def c3Ops : List Op :=
  [ .update 0 traceBase
  , .update 1 (traceBase+600)
  , .poll (1/4) 10 10000 1000 1000 500 (traceBase+700)
  , .update 2 (traceBase+1200)
  , .update 3 (traceBase+1600)
  , .poll (1/4) 10 10000 1000 1000 500 (traceBase+1900) ]

/-- Twenty-one telemetry updates 250 ms apart, each advancing commanded
extrusion by 1 mm, against the default 5000 ms window: every sample is
still inside the window when the 21st insertion prunes, so nothing is
discarded from the full ring. -/
def c4Pre : List Op :=
  [ .update 0 traceBase
  , .update 1 (traceBase+250), .update 2 (traceBase+500)
  , .update 3 (traceBase+750), .update 4 (traceBase+1000)
  , .update 5 (traceBase+1250), .update 6 (traceBase+1500)
  , .update 7 (traceBase+1750), .update 8 (traceBase+2000)
  , .update 9 (traceBase+2250), .update 10 (traceBase+2500)
  , .update 11 (traceBase+2750), .update 12 (traceBase+3000)
  , .update 13 (traceBase+3250), .update 14 (traceBase+3500)
  , .update 15 (traceBase+3750), .update 16 (traceBase+4000)
  , .update 17 (traceBase+4250), .update 18 (traceBase+4500)
  , .update 19 (traceBase+4750), .update 20 (traceBase+5000) ]

/-- `c4Pre` followed by the 21st insertion. -/
def c4Ops : List Op := c4Pre ++ [.update 21 (traceBase+5250)]

/-- A hard jam that triggers, then a recovery interval (20 mm commanded,
20 mm measured), then another poll — with no reset in between. -/
def c9Ops : List Op :=
  [ .update 0 traceBase
  , .update 20 (traceBase+1000), .poll (1/4) 10 10000 2000 1000 0 (traceBase+1500)
  , .update 40 (traceBase+2000), .poll (1/4) 10 10000 2000 1000 0 (traceBase+2500)
  , .update 60 (traceBase+3000), .poll (1/4) 10 10000 2000 1000 0 (traceBase+3500)
  , .update 80 (traceBase+4000), .pulse 20, .poll (1/4) 10 10000 2000 1000 0 (traceBase+4500) ]

/- The core arithmetic of `Rat` is marked irreducible, which blocks
`decide` on concrete traces; make it reducible for evaluation. -/
unseal Rat.mul Rat.add Rat.sub Rat.inv

/-! ## Claim theorems -/

/-- C6.  Non-negativity and clamping: in every state, of every tracking
mode, `getDeficit()` is non-negative, `getFlowRatio()` lies in
`[0, 1.5]`, and `getFlowRatio()` is 0 when the tracker is uninitialized
or the expected distance is non-positive. -/
theorem deficit_nonneg_flow_ratio_clamped (s : SensorState) :
    0 ≤ getDeficit s ∧ 0 ≤ getFlowRatio s ∧ getFlowRatio s ≤ 3/2 ∧
    (isInitialized s = false → getFlowRatio s = 0) ∧
    (getExpectedDistance s ≤ 0 → getFlowRatio s = 0) := by
  have hd : 0 ≤ getDeficit s := by
    unfold getDeficit; dsimp only; split_ifs with h1 h2
    · rfl
    · linarith
    · rfl
  have hr0 : 0 ≤ getFlowRatio s := by
    unfold getFlowRatio; dsimp only; split_ifs with h1 h2 h3 h4 h5
    · rfl
    · rfl
    · rfl
    · norm_num
    · rfl
    · linarith
  have hr32 : getFlowRatio s ≤ 3/2 := by
    unfold getFlowRatio; dsimp only; split_ifs with h1 h2 h3 h4 h5
    · norm_num
    · norm_num
    · norm_num
    · norm_num
    · norm_num
    · linarith
  have hu : isInitialized s = false → getFlowRatio s = 0 := by
    intro h; unfold isInitialized at h; simp [getFlowRatio, h]
  have he : getExpectedDistance s ≤ 0 → getFlowRatio s = 0 := by
    intro h; unfold getFlowRatio; dsimp only
    split_ifs <;> rfl
  exact ⟨hd, hr0, hr32, hu, he⟩

/-- C7.  Reset postcondition: immediately after `reset()`, in any prior
state and tracking mode, the tracker reports uninitialized, all distance
accessors return 0, the sample buffer is cleared and the numeric state
(cumulative totals, EWMA accumulators, jam streak state) is zeroed. -/
theorem reset_postcondition (s : SensorState) (now : Nat) :
    isInitialized (reset s now) = false ∧
    getExpectedDistance (reset s now) = 0 ∧
    getSensorDistance (reset s now) = 0 ∧
    getDeficit (reset s now) = 0 ∧
    (reset s now).sampleCount = 0 ∧
    (reset s now).nextSampleIndex = 0 ∧
    (reset s now).samples = List.replicate MAX_SAMPLES zeroSample ∧
    (reset s now).baselinePositionMm = 0 ∧
    (reset s now).expectedPositionMm = 0 ∧
    (reset s now).sensorDistanceMm = 0 ∧
    (reset s now).ewmaExpectedMm = 0 ∧
    (reset s now).ewmaActualMm = 0 ∧
    (reset s now).hardJamStartMs = 0 ∧
    (reset s now).softJamStartMs = 0 ∧
    (reset s now).hardJamAccumExpectedMm = 0 ∧
    (reset s now).softJamAccumExpectedMm = 0 := by
  simp [reset, isInitialized, getExpectedDistance, getSensorDistance, getDeficit]

/-- C5.  Retraction resync: on an initialized tracker, an expected-position
update that is strictly below the recorded expected position resets the
baseline to the new value, zeroes the accumulated sensor distance, clears
the sample buffer and the EWMA accumulators, and afterwards
`getExpectedDistance()` and `getSensorDistance()` both return 0. -/
theorem retraction_resync (s : SensorState) (total : ℚ) (now : Nat)
    (hinit : s.initialized = true) (hret : total < s.expectedPositionMm) :
    (updateExpectedPosition s total now).baselinePositionMm = total ∧
    (updateExpectedPosition s total now).sensorDistanceMm = 0 ∧
    (updateExpectedPosition s total now).sampleCount = 0 ∧
    (updateExpectedPosition s total now).nextSampleIndex = 0 ∧
    (updateExpectedPosition s total now).ewmaExpectedMm = 0 ∧
    (updateExpectedPosition s total now).ewmaActualMm = 0 ∧
    (updateExpectedPosition s total now).expectedPositionMm = total ∧
    getExpectedDistance (updateExpectedPosition s total now) = 0 ∧
    getSensorDistance (updateExpectedPosition s total now) = 0 := by
  unfold updateExpectedPosition
  simp only [hinit]
  rw [if_neg (by simp)]
  rw [if_pos hret]
  simp only
  rw [if_neg (by intro h; have := h.2; simp at this; linarith)]
  cases h : s.trackingMode <;>
    simp_all [getExpectedDistance, getSensorDistance, getWindowedDistances]

/-- Witness for C5, matching the spec's scenario: baseline established at
0, expected position advanced to 20, then telemetry reports 15 (a
retraction); distance accounting restarts from 15 and the sensor distance
returns to 0. -/
theorem retraction_resync_witness :
    ((updateExpectedPosition (updateExpectedPosition (mkSensor 0) 20 traceBase)
        15 (traceBase+100)).baselinePositionMm = 15 ∧
      getExpectedDistance (updateExpectedPosition
        (updateExpectedPosition (mkSensor 0) 20 traceBase) 15 (traceBase+100)) = 0 ∧
      getSensorDistance (updateExpectedPosition
        (updateExpectedPosition (mkSensor 0) 20 traceBase) 15 (traceBase+100)) = 0) := by
  have h := retraction_resync (updateExpectedPosition (mkSensor 0) 20 traceBase)
    15 (traceBase+100) (by rfl) (by norm_num [updateExpectedPosition, mkSensor, reset])
  exact ⟨h.1, h.2.2.2.2.2.2.2.1, h.2.2.2.2.2.2.2.2⟩

set_option maxRecDepth 10000 in
/-- C3, counterexample.  The claim reads the grace anchor as the most
recent *call* to `updateExpectedPosition`.  In `c3Ops` the last update
call happens at `traceBase+1600` and the poll at `traceBase+1900` with
`gracePeriodMs = 500`: the poll is only 300 ms after that call, yet
`isJammed` reports `true` — because an ordinary update (no retraction,
gap ≤ 2000 ms) does not refresh `lastExpectedUpdateMs`, which still
holds the initialization time `traceBase`. -/
theorem grace_anchor_counterexample :
    u32sub (traceBase+1900) (traceBase+1600) < 500 ∧
    pollResults (mkSensor 0) c3Ops = [false, true] := by
  constructor
  · decide
  · decide

/-- C3, amended.  Grace period against the tracker's recorded
`lastExpectedUpdateMs` (refreshed only by initialization, retraction
resync and telemetry-gap resumption — not by every update call): whenever
`gracePeriodMs > 0` and less than `gracePeriodMs` elapsed since that
anchor, `isJammed` returns `false` and clears both streak timers. -/
theorem grace_period_suppresses (s : SensorState) (rt hjThr : ℚ)
    (sj hj ci : Int) (gp now : Nat)
    (hgp : 0 < gp) (hg : u32sub now s.lastExpectedUpdateMs < gp) :
    (isJammed s rt hjThr sj hj ci gp now).1 = false ∧
    (isJammed s rt hjThr sj hj ci gp now).2.hardJamStartMs = 0 ∧
    (isJammed s rt hjThr sj hj ci gp now).2.softJamStartMs = 0 := by
  unfold isJammed
  dsimp only
  split_ifs with h1 h2 <;>
    first
      | exact ⟨rfl, rfl, rfl⟩
      | exact absurd ⟨hgp, hg⟩ h2

/-- Witness for the amended C3: a freshly initialized tracker polled
100 ms after initialization with a 500 ms grace period reports no jam. -/
theorem grace_period_suppresses_witness :
    (isJammed (updateExpectedPosition (mkSensor 0) 0 traceBase)
        (1/4) 10 10000 2000 1000 500 (traceBase+100)).1 = false := by
  exact (grace_period_suppresses (updateExpectedPosition (mkSensor 0) 0 traceBase)
    (1/4) 10 10000 2000 1000 500 (traceBase+100) (by norm_num)
    (by norm_num [updateExpectedPosition, mkSensor, reset, u32sub])).1

set_option maxRecDepth 10000 in
/-- C4 (code bug).  Windowed pruning after the ring has filled: after the
20 insertions of `c4Pre` the ring is full (`sampleCount = 20`,
`nextSampleIndex = 0`).  The 21st insertion first prunes; nothing is out
of the window, and `pruneOldSamples` then sets `nextSampleIndex` to
`sampleCount = 20 = MAX_SAMPLES` — an out-of-range insertion index, so
the C++ `samples[nextSampleIndex] = ...` writes out of bounds (undefined
behaviour; a lost write in this model).  After the insertion the
most-recent-sample index arithmetic designates the *oldest* sample
(timestamp `traceBase+250`) and the newest sample (timestamp
`traceBase+5250`) is nowhere in the buffer. -/
theorem pruning_wrap_out_of_bounds :
    (runOps (mkSensor 0) c4Pre).sampleCount = MAX_SAMPLES ∧
    (runOps (mkSensor 0) c4Pre).nextSampleIndex = 0 ∧
    (pruneOldSamples (runOps (mkSensor 0) c4Pre) (traceBase+5250)).nextSampleIndex
      = MAX_SAMPLES ∧
    (runOps (mkSensor 0) c4Ops).sampleCount = MAX_SAMPLES ∧
    (runOps (mkSensor 0) c4Ops).nextSampleIndex = 1 ∧
    ((runOps (mkSensor 0) c4Ops).samples.getD
        (mostRecentIdx (runOps (mkSensor 0) c4Ops).nextSampleIndex)
        zeroSample).timestampMs = traceBase + 250 ∧
    ((runOps (mkSensor 0) c4Ops).samples.all
        fun smp => smp.timestampMs ≠ traceBase + 5250) = true := by
  decide

/-- C8.  Defensive defaults of `isJammed`: an uninitialized tracker or a
non-positive `checkIntervalMs` yields `false` immediately with cleared
streak timers; `ratioThreshold ≤ 0` behaves as `0.25`;
`ratioThreshold > 1` behaves as `1.0`; `softJamTimeMs ≤ 0` behaves as
`10000`; `hardJamTimeMs ≤ 0` behaves as `5000`. -/
theorem defensive_defaults (s : SensorState) (rt hjThr : ℚ)
    (sj hj ci : Int) (gp now : Nat) :
    ((s.initialized = false ∨ ci ≤ 0) →
      isJammed s rt hjThr sj hj ci gp now
        = (false, { s with hardJamStartMs := 0, softJamStartMs := 0 })) ∧
    (rt ≤ 0 →
      isJammed s rt hjThr sj hj ci gp now
        = isJammed s (1/4) hjThr sj hj ci gp now) ∧
    (1 < rt →
      isJammed s rt hjThr sj hj ci gp now
        = isJammed s 1 hjThr sj hj ci gp now) ∧
    (sj ≤ 0 →
      isJammed s rt hjThr sj hj ci gp now
        = isJammed s rt hjThr 10000 hj ci gp now) ∧
    (hj ≤ 0 →
      isJammed s rt hjThr sj hj ci gp now
        = isJammed s rt hjThr sj 5000 ci gp now) := by
  refine ⟨?_, ?_, ?_, ?_, ?_⟩ <;> intro h
  · unfold isJammed; rw [if_pos h]
  all_goals by_cases hgate : s.initialized = false ∨ ci ≤ 0
  all_goals unfold isJammed
  any_goals rw [if_pos hgate, if_pos hgate]
  all_goals rw [if_neg hgate, if_neg hgate]
  all_goals dsimp only
  · rw [if_pos h, if_neg (by norm_num : ¬((1:ℚ)/4 ≤ 0))]
  · rw [if_neg (by linarith : ¬(rt ≤ 0)), if_pos (by linarith : rt > 1),
      if_neg (by norm_num : ¬((1:ℚ) ≤ 0)), if_neg (by norm_num : ¬((1:ℚ) > 1))]
  · rw [if_pos h, if_neg (by norm_num : ¬((10000:Int) ≤ 0))]
  · rw [if_pos h, if_neg (by norm_num : ¬((5000:Int) ≤ 0))]

/-- Witness for C8, each conjunct at a concrete input: an uninitialized
tracker returns `false`; `ratioThreshold = -1` behaves as `0.25`;
`ratioThreshold = 2` behaves as `1`; `softJamTimeMs = 0` behaves as
`10000`; `hardJamTimeMs = -5` behaves as `5000`. -/
theorem defensive_defaults_witness :
    isJammed (mkSensor 0) (1/4) 10 10000 2000 1000 0 50
      = (false, { mkSensor 0 with hardJamStartMs := 0, softJamStartMs := 0 }) ∧
    isJammed (mkSensor 7) (-1) 10 10000 2000 1000 0 50
      = isJammed (mkSensor 7) (1/4) 10 10000 2000 1000 0 50 ∧
    isJammed (mkSensor 7) 2 10 10000 2000 1000 0 50
      = isJammed (mkSensor 7) 1 10 10000 2000 1000 0 50 ∧
    isJammed (mkSensor 7) (1/4) 10 0 2000 1000 0 50
      = isJammed (mkSensor 7) (1/4) 10 10000 2000 1000 0 50 ∧
    isJammed (mkSensor 7) (1/4) 10 10000 (-5) 1000 0 50
      = isJammed (mkSensor 7) (1/4) 10 10000 5000 1000 0 50 :=
  ⟨(defensive_defaults (mkSensor 0) (1/4) 10 10000 2000 1000 0 50).1
      (Or.inl rfl),
    (defensive_defaults (mkSensor 7) (-1) 10 10000 2000 1000 0 50).2.1
      (by norm_num),
    (defensive_defaults (mkSensor 7) 2 10 10000 2000 1000 0 50).2.2.1
      (by norm_num),
    (defensive_defaults (mkSensor 7) (1/4) 10 0 2000 1000 0 50).2.2.2.1
      (by norm_num),
    (defensive_defaults (mkSensor 7) (1/4) 10 10000 (-5) 1000 0 50).2.2.2.2
      (by norm_num)⟩

/-! ## Supporting lemmas for C10 -/

/-- An empty sample buffer has a zero latest expected delta. -/
theorem latestExpectedOf_empty (s : SensorState) (hc : s.sampleCount = 0) :
    latestExpectedOf s = 0 := by
  unfold latestExpectedOf latestSampleIndexInt
  rw [hc]
  norm_num

/-- With an empty sample buffer, every `isJammed` call returns `false`
(all gate branches return `false`, and the minimum-advance gate fails
because the latest expected delta is 0). -/
theorem isJammed_of_empty_buffer (s : SensorState) (rt hjThr : ℚ)
    (sj hj ci : Int) (gp now : Nat) (hc : s.sampleCount = 0) :
    (isJammed s rt hjThr sj hj ci gp now).1 = false := by
  unfold isJammed jamDetect
  have hlat : latestExpectedOf (noteDeficit s now) = 0 := by
    apply latestExpectedOf_empty
    simp [noteDeficit, hc]
  dsimp only
  split_ifs with h1 h2 h3 <;>
    first
      | rfl
      | (exact absurd (hlat ▸ h3) (by norm_num [MIN_EXPECTED_DELTA]))

/-- The hard accumulation block leaves the buffer and mode unchanged. -/
theorem accumHard_buffer (s : SensorState) :
    (accumHard s).sampleCount = s.sampleCount ∧
    (accumHard s).trackingMode = s.trackingMode := by
  unfold accumHard; dsimp only; split_ifs <;> exact ⟨rfl, rfl⟩

/-- The soft accumulation block leaves the buffer and mode unchanged. -/
theorem accumSoft_buffer (s : SensorState) :
    (accumSoft s).sampleCount = s.sampleCount ∧
    (accumSoft s).trackingMode = s.trackingMode := by
  unfold accumSoft; dsimp only; split_ifs <;> exact ⟨rfl, rfl⟩

/-- The soft block leaves the buffer and mode unchanged. -/
theorem softPhase_buffer (s : SensorState) (rt : ℚ) (sjN now : Nat) :
    (softPhase s rt sjN now).2.sampleCount = s.sampleCount ∧
    (softPhase s rt sjN now).2.trackingMode = s.trackingMode := by
  unfold softPhase clearSoft
  dsimp only
  split_ifs <;>
    exact ⟨(accumSoft_buffer s).1, (accumSoft_buffer s).2⟩

/-- The hard block (with the trailing soft block) leaves the buffer and
mode unchanged. -/
theorem hardPhase_buffer (s : SensorState) (rt : ℚ) (sjN hjN now : Nat) :
    (hardPhase s rt sjN hjN now).2.sampleCount = s.sampleCount ∧
    (hardPhase s rt sjN hjN now).2.trackingMode = s.trackingMode := by
  unfold hardPhase clearHard
  dsimp only
  split_ifs <;>
    first
      | exact ⟨(accumHard_buffer s).1, (accumHard_buffer s).2⟩
      | (refine ⟨?_, ?_⟩ <;>
          first
            | (rw [(softPhase_buffer _ _ _ _).1]; exact (accumHard_buffer s).1)
            | (rw [(softPhase_buffer _ _ _ _).2]; exact (accumHard_buffer s).2))

/-- `isJammed` never changes the sample buffer, the sample count or the
tracking mode (it only updates the `mutable` hysteresis fields). -/
theorem isJammed_preserves_buffer (s : SensorState) (rt hjThr : ℚ)
    (sj hj ci : Int) (gp now : Nat) :
    (isJammed s rt hjThr sj hj ci gp now).2.sampleCount = s.sampleCount ∧
    (isJammed s rt hjThr sj hj ci gp now).2.trackingMode = s.trackingMode := by
  unfold isJammed jamDetect clearAllStreak clearHard clearSoft
  dsimp only
  split_ifs <;>
    first
      | exact ⟨rfl, rfl⟩
      | (refine ⟨?_, ?_⟩ <;>
          first
            | (rw [(hardPhase_buffer _ _ _ _ _).1]; rfl)
            | (rw [(hardPhase_buffer _ _ _ _ _).2]; rfl))

/-- One step of a non-windowed trace keeps the sample buffer empty and
the mode non-windowed. -/
theorem step_nonwindowed (s : SensorState) (op : Op)
    (hc : s.sampleCount = 0)
    (hm : s.trackingMode ≠ FilamentTrackingMode.windowed)
    (hop : ∀ m w a, op = Op.setMode m w a → m ≠ FilamentTrackingMode.windowed) :
    (step s op).sampleCount = 0 ∧
    (step s op).trackingMode ≠ FilamentTrackingMode.windowed := by
  cases op with
  | update mm now =>
    unfold step updateExpectedPosition
    dsimp only
    split_ifs <;> simp_all [addSample, pruneOldSamples]
  | pulse mm =>
    unfold step addSensorPulse
    dsimp only
    split_ifs <;> simp_all
  | setMode m w a =>
    refine ⟨by simp [step, setTrackingMode, hc], ?_⟩
    have : (step s (Op.setMode m w a)).trackingMode = m := by
      simp [step, setTrackingMode]
    rw [this]
    exact hop m w a rfl
  | doReset now =>
    refine ⟨by simp [step, reset], ?_⟩
    have : (step s (Op.doReset now)).trackingMode = s.trackingMode := by
      simp [step, reset]
    rw [this]
    exact hm
  | poll rt hjt sj hj ci gp now =>
    have h := isJammed_preserves_buffer s rt hjt sj hj ci gp now
    exact ⟨by rw [step, h.1, hc], by rw [step, h.2]; exact hm⟩

/-- C10.  Jam classification only functions in windowed tracking mode:
starting from any state with an empty sample buffer and a non-windowed
mode (e.g. right after `reset()` with cumulative or EWMA tracking), as
long as every `setTrackingMode` in the trace selects a non-windowed mode,
the sample buffer stays empty, the latest expected delta read by
`isJammed`'s minimum-advance gate is 0, and every poll returns `false`
— regardless of how large the cumulative or EWMA deficit grows. -/
theorem nonwindowed_never_jams (ops : List Op) (s : SensorState)
    (hc : s.sampleCount = 0)
    (hm : s.trackingMode ≠ FilamentTrackingMode.windowed)
    (hops : ∀ m w a, Op.setMode m w a ∈ ops → m ≠ FilamentTrackingMode.windowed) :
    (runOps s ops).sampleCount = 0 ∧
    latestExpectedOf (runOps s ops) = 0 ∧
    ∀ b ∈ pollResults s ops, b = false := by
  induction ops generalizing s with
  | nil =>
    exact ⟨hc, latestExpectedOf_empty s hc, by simp [pollResults]⟩
  | cons op ops ih =>
    have hop : ∀ m w a, op = Op.setMode m w a → m ≠ FilamentTrackingMode.windowed := by
      intro m w a he
      exact hops m w a (by rw [he]; exact List.mem_cons_self _ _)
    have hpres := step_nonwindowed s op hc hm hop
    have ihs := ih (step s op) hpres.1 hpres.2
      (fun m w a hmem => hops m w a (List.mem_cons_of_mem _ hmem))
    refine ⟨by simpa [runOps] using ihs.1, by simpa [runOps] using ihs.2.1, ?_⟩
    intro b hb
    cases op with
    | poll rt hjt sj hj ci gp now =>
      simp only [pollResults, List.mem_cons] at hb
      rcases hb with h | h
      · rw [h]
        exact isJammed_of_empty_buffer s rt hjt sj hj ci gp now hc
      · exact ihs.2.2 b h
    | update mm now => exact ihs.2.2 b (by simpa [pollResults] using hb)
    | pulse mm => exact ihs.2.2 b (by simpa [pollResults] using hb)
    | setMode m w a => exact ihs.2.2 b (by simpa [pollResults] using hb)
    | doReset now => exact ihs.2.2 b (by simpa [pollResults] using hb)

/-- Witness for C10: cumulative mode, a 100 mm commanded extrusion with
zero pulses (an enormous cumulative deficit), and a poll — the verdict
is still `false`. -/
theorem nonwindowed_never_jams_witness :
    (isJammed (runOps
        (setTrackingMode (mkSensor 0) FilamentTrackingMode.cumulative 5000 (3/10))
        [ Op.update 0 traceBase, Op.update 100 (traceBase+1000) ])
      (1/4) 10 10000 2000 1000 0 (traceBase+10000)).1 = false := by
  exact (nonwindowed_never_jams
      [ Op.update 0 traceBase
      , Op.update 100 (traceBase+1000)
      , Op.poll (1/4) 10 10000 2000 1000 0 (traceBase+10000) ]
      (setTrackingMode (mkSensor 0) FilamentTrackingMode.cumulative 5000 (3/10))
      (by decide) (by decide)
      (by intro m w a hmem; simp at hmem)).2.2
    _ (by decide)

/-! ## Field bookkeeping for the per-poll claims

The hard and soft streak blocks touch disjoint groups of fields; the
deficit bookkeeping touches only its own two fields.  These lemmas record
that, so per-block facts transport to the whole of `isJammed`. -/

/-- `accumHard` changes only the three hard accumulator fields. -/
theorem accumHard_misc (u : SensorState) :
    (accumHard u).hardJamStartMs = u.hardJamStartMs ∧
    (accumHard u).softJamStartMs = u.softJamStartMs ∧
    (accumHard u).softJamAccumExpectedMm = u.softJamAccumExpectedMm ∧
    (accumHard u).softJamAccumActualMm = u.softJamAccumActualMm ∧
    (accumHard u).softJamLastSampleMs = u.softJamLastSampleMs ∧
    (accumHard u).samples = u.samples ∧
    (accumHard u).sampleCount = u.sampleCount ∧
    (accumHard u).nextSampleIndex = u.nextSampleIndex ∧
    (accumHard u).initialized = u.initialized ∧
    (accumHard u).lastExpectedUpdateMs = u.lastExpectedUpdateMs := by
  unfold accumHard; dsimp only; split_ifs <;>
    exact ⟨rfl, rfl, rfl, rfl, rfl, rfl, rfl, rfl, rfl, rfl⟩

/-- `accumSoft` changes only the three soft accumulator fields. -/
theorem accumSoft_misc (u : SensorState) :
    (accumSoft u).softJamStartMs = u.softJamStartMs ∧
    (accumSoft u).hardJamStartMs = u.hardJamStartMs ∧
    (accumSoft u).hardJamAccumExpectedMm = u.hardJamAccumExpectedMm ∧
    (accumSoft u).hardJamAccumActualMm = u.hardJamAccumActualMm ∧
    (accumSoft u).hardJamLastSampleMs = u.hardJamLastSampleMs ∧
    (accumSoft u).samples = u.samples ∧
    (accumSoft u).sampleCount = u.sampleCount ∧
    (accumSoft u).nextSampleIndex = u.nextSampleIndex ∧
    (accumSoft u).initialized = u.initialized ∧
    (accumSoft u).lastExpectedUpdateMs = u.lastExpectedUpdateMs := by
  unfold accumSoft; dsimp only; split_ifs <;>
    exact ⟨rfl, rfl, rfl, rfl, rfl, rfl, rfl, rfl, rfl, rfl⟩

/-- The soft block never touches the hard streak fields. -/
theorem softPhase_hard_fields (u : SensorState) (rt : ℚ) (sjN now : Nat) :
    (softPhase u rt sjN now).2.hardJamStartMs = u.hardJamStartMs ∧
    (softPhase u rt sjN now).2.hardJamAccumExpectedMm = u.hardJamAccumExpectedMm ∧
    (softPhase u rt sjN now).2.hardJamAccumActualMm = u.hardJamAccumActualMm ∧
    (softPhase u rt sjN now).2.hardJamLastSampleMs = u.hardJamLastSampleMs := by
  unfold softPhase clearSoft
  dsimp only
  have h := accumSoft_misc u
  split_ifs <;>
    exact ⟨h.2.1, h.2.2.1, h.2.2.2.1, h.2.2.2.2.1⟩

/-- Hard accumulation commutes with the deficit bookkeeping: the hard
accumulator values after the accumulation step do not depend on the
`lastWindowDeficitMm`/`lastDeficitTimestampMs` update that precedes it. -/
theorem accumHard_noteDeficit (s : SensorState) (now : Nat) :
    (accumHard (noteDeficit s now)).hardJamAccumExpectedMm
        = (accumHard s).hardJamAccumExpectedMm ∧
    (accumHard (noteDeficit s now)).hardJamAccumActualMm
        = (accumHard s).hardJamAccumActualMm ∧
    (accumHard (noteDeficit s now)).hardJamLastSampleMs
        = (accumHard s).hardJamLastSampleMs := by
  unfold accumHard noteDeficit latestSampleIndexInt
  dsimp only
  split_ifs <;> exact ⟨rfl, rfl, rfl⟩

/-- Therefore the post-accumulation hard ratio can be computed on the
state as it was at entry to `isJammed`. -/
theorem hardRatioOf_accumHard_noteDeficit (s : SensorState) (now : Nat) :
    hardRatioOf (accumHard (noteDeficit s now)) = hardRatioOf (accumHard s) := by
  unfold hardRatioOf
  rw [(accumHard_noteDeficit s now).1, (accumHard_noteDeficit s now).2.1]

set_option maxRecDepth 10000 in
/-- C1.  Hard-jam detection, per poll: when the gates pass (initialized,
positive check interval, out of grace) and the latest sample's expected
delta reaches the minimum-advance floor, then — with the ratio of the
hard accumulators after consuming the latest sample — a ratio below the
0.10 near-zero threshold starts the hard-jam timer if not already
running and yields `true` as soon as the timer has run at least
`hardJamTimeMs`; a ratio at or above 0.10 clears the hard-jam timer and
accumulators.  The closing conjunct is the claim's scenario:
`hardJamTimeMs = 2000`, polls every 1000 ms, 20 mm/s commanded with zero
pulses — `false` while the streak is under 2000 ms, `true` from the poll
at which the streak reaches 2000 ms. -/
theorem hard_jam_detection (s : SensorState) (rt hjThr : ℚ)
    (sj hj ci : Int) (gp now : Nat)
    (hinit : s.initialized = true) (hci : 0 < ci)
    (hgrace : gp = 0 ∨ gp ≤ u32sub now s.lastExpectedUpdateMs)
    (hadv : MIN_EXPECTED_DELTA ≤ latestExpectedOf s) :
    (hardRatioOf (accumHard s) < HARD_PASS_RATIO_THRESHOLD →
      (isJammed s rt hjThr sj hj ci gp now).2.hardJamStartMs
          = (if s.hardJamStartMs = 0 then now else s.hardJamStartMs) ∧
      ((if hj ≤ 0 then (5000 : Int) else hj).toNat
          ≤ u32sub now (if s.hardJamStartMs = 0 then now else s.hardJamStartMs) →
        (isJammed s rt hjThr sj hj ci gp now).1 = true)) ∧
    (HARD_PASS_RATIO_THRESHOLD ≤ hardRatioOf (accumHard s) →
      (isJammed s rt hjThr sj hj ci gp now).2.hardJamStartMs = 0 ∧
      (isJammed s rt hjThr sj hj ci gp now).2.hardJamAccumExpectedMm = 0 ∧
      (isJammed s rt hjThr sj hj ci gp now).2.hardJamAccumActualMm = 0 ∧
      (isJammed s rt hjThr sj hj ci gp now).2.hardJamLastSampleMs
          = INVALID_SAMPLE_TIMESTAMP) ∧
    pollResults (mkSensor 0) c1Ops = [false, false, true, true, true] := by
  have hgate : ¬(s.initialized = false ∨ ci ≤ 0) := by
    rw [hinit]
    push_neg
    exact ⟨by simp, by omega⟩
  have hgrace' : ¬(gp > 0 ∧ u32sub now s.lastExpectedUpdateMs < gp) := by
    rcases hgrace with h | h
    · omega
    · omega
  have hadv' : MIN_EXPECTED_DELTA ≤ latestExpectedOf (noteDeficit s now) := hadv
  have hstart : (accumHard (noteDeficit s now)).hardJamStartMs = s.hardJamStartMs :=
    (accumHard_misc _).1
  refine ⟨?_, ?_, by decide⟩
  · intro hlow
    have hlow' : hardRatioOf (accumHard (noteDeficit s now)) < HARD_PASS_RATIO_THRESHOLD := by
      rw [hardRatioOf_accumHard_noteDeficit]
      exact hlow
    simp only [isJammed]
    rw [if_neg hgate]
    try dsimp only
    rw [if_neg hgrace']
    simp only [jamDetect]
    try dsimp only
    rw [if_pos hadv']
    simp only [hardPhase]
    try dsimp only
    rw [if_pos hlow']
    rw [hstart]
    by_cases hz : s.hardJamStartMs = 0
    · rw [if_pos hz, if_pos hz]
      try dsimp only
      by_cases he : (if hj ≤ 0 then (5000 : Int) else hj).toNat ≤ u32sub now now
      · rw [if_pos he]
        exact ⟨rfl, fun _ => rfl⟩
      · rw [if_neg he]
        refine ⟨?_, fun h => absurd h he⟩
        exact (softPhase_hard_fields _ _ _ _).1
    · rw [if_neg hz, if_neg hz]
      rw [hstart]
      by_cases he : (if hj ≤ 0 then (5000 : Int) else hj).toNat
          ≤ u32sub now s.hardJamStartMs
      · rw [if_pos he]
        exact ⟨hstart, fun _ => rfl⟩
      · rw [if_neg he]
        refine ⟨?_, fun h => absurd h he⟩
        rw [(softPhase_hard_fields _ _ _ _).1]
        exact hstart
  · intro hhigh
    have hhigh' : ¬(hardRatioOf (accumHard (noteDeficit s now)) < HARD_PASS_RATIO_THRESHOLD) := by
      rw [hardRatioOf_accumHard_noteDeficit]
      exact not_lt.mpr hhigh
    simp only [isJammed]
    rw [if_neg hgate]
    try dsimp only
    rw [if_neg hgrace']
    simp only [jamDetect]
    try dsimp only
    rw [if_pos hadv']
    simp only [hardPhase]
    try dsimp only
    rw [if_neg hhigh']
    have h := softPhase_hard_fields
      (clearHard (accumHard (noteDeficit s now)))
      (if (if rt ≤ 0 then (1/4 : ℚ) else rt) > 1 then 1
        else (if rt ≤ 0 then (1/4 : ℚ) else rt))
      (if sj ≤ 0 then (10000 : Int) else sj).toNat now
    exact ⟨h.1, h.2.1, h.2.2.1, h.2.2.2⟩

/-- The warm-up prefix of the hard-jam scenario: the state right before
the poll at which the hard streak reaches 2000 ms. -/
def c1Warm : List Op :=
  [ .update 0 traceBase
  , .update 20 (traceBase+1000), .poll (1/4) 10 10000 2000 1000 0 (traceBase+1500)
  , .update 40 (traceBase+2000), .poll (1/4) 10 10000 2000 1000 0 (traceBase+2500)
  , .update 60 (traceBase+3000) ]

set_option maxRecDepth 10000 in
/-- Witness for C1: at the third poll of the hard-jam scenario the
accumulated hard ratio is 0, the timer has been running for 2000 ms, and
the verdict is `true`. -/
theorem hard_jam_detection_witness :
    (isJammed (runOps (mkSensor 0) c1Warm)
        (1/4) 10 10000 2000 1000 0 (traceBase+3500)).1 = true := by
  exact ((hard_jam_detection (runOps (mkSensor 0) c1Warm)
    (1/4) 10 10000 2000 1000 0 (traceBase+3500)
    (by decide) (by norm_num) (Or.inl rfl) (by decide)).1 (by decide)).2 (by decide)

/-- Soft accumulation only looks at the buffer and the soft accumulator
fields, so it computes the same accumulator values on any state agreeing
with `v` there. -/
theorem accumSoft_congr (u v : SensorState)
    (hsam : u.samples = v.samples) (hc : u.sampleCount = v.sampleCount)
    (hn : u.nextSampleIndex = v.nextSampleIndex)
    (he : u.softJamAccumExpectedMm = v.softJamAccumExpectedMm)
    (ha : u.softJamAccumActualMm = v.softJamAccumActualMm)
    (hl : u.softJamLastSampleMs = v.softJamLastSampleMs) :
    (accumSoft u).softJamAccumExpectedMm = (accumSoft v).softJamAccumExpectedMm ∧
    (accumSoft u).softJamAccumActualMm = (accumSoft v).softJamAccumActualMm ∧
    (accumSoft u).softJamLastSampleMs = (accumSoft v).softJamLastSampleMs := by
  unfold accumSoft latestSampleIndexInt
  dsimp only
  rw [hsam, hc, hn, he, ha, hl]
  split_ifs <;> first | exact ⟨rfl, rfl, rfl⟩ | exact ⟨he, ha, hl⟩

/-- Full description of the soft block on a state `u` whose buffer and
soft fields agree with `v`: a soft ratio below the threshold starts the
soft timer if not already running, and the verdict is `true` exactly when
the accumulated deficit has reached the 0.5 mm floor and the timer has
run at least the soft jam time; a ratio at or above the threshold clears
the soft streak state and the verdict is `false`. -/
theorem softPhase_spec (u v : SensorState) (rtT : ℚ) (sjN now : Nat)
    (hsam : u.samples = v.samples) (hc : u.sampleCount = v.sampleCount)
    (hn : u.nextSampleIndex = v.nextSampleIndex)
    (hss : u.softJamStartMs = v.softJamStartMs)
    (he : u.softJamAccumExpectedMm = v.softJamAccumExpectedMm)
    (ha : u.softJamAccumActualMm = v.softJamAccumActualMm)
    (hl : u.softJamLastSampleMs = v.softJamLastSampleMs) :
    (softRatioOf (accumSoft v) < rtT →
      (softPhase u rtT sjN now).2.softJamStartMs
          = (if v.softJamStartMs = 0 then now else v.softJamStartMs) ∧
      ((softPhase u rtT sjN now).1 = true ↔
        (MIN_SOFT_DEFICIT_MM ≤ softDeficitOf (accumSoft v) ∧
          sjN ≤ u32sub now (if v.softJamStartMs = 0 then now else v.softJamStartMs)))) ∧
    (rtT ≤ softRatioOf (accumSoft v) →
      (softPhase u rtT sjN now).1 = false ∧
      (softPhase u rtT sjN now).2.softJamStartMs = 0 ∧
      (softPhase u rtT sjN now).2.softJamAccumExpectedMm = 0 ∧
      (softPhase u rtT sjN now).2.softJamAccumActualMm = 0 ∧
      (softPhase u rtT sjN now).2.softJamLastSampleMs
          = INVALID_SAMPLE_TIMESTAMP) := by
  have hcongr := accumSoft_congr u v hsam hc hn he ha hl
  have hratio : softRatioOf (accumSoft u) = softRatioOf (accumSoft v) := by
    unfold softRatioOf
    rw [hcongr.1, hcongr.2.1]
  have hdef : softDeficitOf (accumSoft u) = softDeficitOf (accumSoft v) := by
    unfold softDeficitOf
    rw [hcongr.1, hcongr.2.1]
  have hstart : (accumSoft u).softJamStartMs = v.softJamStartMs := by
    rw [(accumSoft_misc u).1, hss]
  constructor
  · intro hlow
    unfold softPhase
    dsimp only
    rw [if_pos (by rw [hratio]; exact hlow)]
    rw [hstart]
    by_cases hz : v.softJamStartMs = 0
    · simp only [if_pos hz]
      have hdef2 : softDeficitOf { accumSoft u with softJamStartMs := now }
          = softDeficitOf (accumSoft v) := by
        unfold softDeficitOf
        dsimp only
        rw [hcongr.1, hcongr.2.1]
      try dsimp only
      rw [hdef2]
      by_cases hcond : MIN_SOFT_DEFICIT_MM ≤ softDeficitOf (accumSoft v) ∧
          sjN ≤ u32sub now now
      · simp only [if_pos hcond]
        exact ⟨by first | trivial | rfl, by simp [hcond]⟩
      · simp only [if_neg hcond]
        exact ⟨by first | trivial | rfl, by simp [hcond]⟩
    · simp only [if_neg hz]
      rw [hdef, hstart]
      by_cases hcond : MIN_SOFT_DEFICIT_MM ≤ softDeficitOf (accumSoft v) ∧
          sjN ≤ u32sub now v.softJamStartMs
      · simp only [if_pos hcond]
        exact ⟨by first | trivial | exact hstart, by simp [hcond]⟩
      · simp only [if_neg hcond]
        exact ⟨by first | trivial | exact hstart, by simp [hcond]⟩
  · intro hhigh
    unfold softPhase clearSoft
    dsimp only
    rw [if_neg (by rw [hratio]; exact not_lt.mpr hhigh)]
    exact ⟨rfl, rfl, rfl, rfl, rfl⟩

/-- C2.  Soft-jam detection, per poll: when the gates pass, the latest
sample's expected delta reaches the minimum-advance floor, and the hard
block did not just trigger, then — with the soft accumulators after
consuming the latest sample — a soft ratio below the (clamped) threshold
starts the soft-jam timer if not already running, and the verdict is
`true` exactly when the accumulated soft deficit has reached the 0.5 mm
floor *and* the timer has run at least `softJamTimeMs`; a recovered
ratio clears the soft streak state and the verdict is `false`.  The
closing conjunct is the claim's scenario: one 1-second interval at 15 %
flow surrounded by normal-flow intervals never yields `true`. -/
theorem soft_jam_detection (s : SensorState) (rt hjThr : ℚ)
    (sj hj ci : Int) (gp now : Nat)
    (hinit : s.initialized = true) (hci : 0 < ci)
    (hgrace : gp = 0 ∨ gp ≤ u32sub now s.lastExpectedUpdateMs)
    (hadv : MIN_EXPECTED_DELTA ≤ latestExpectedOf s)
    (hnotHard : ¬(hardRatioOf (accumHard s) < HARD_PASS_RATIO_THRESHOLD ∧
      (if hj ≤ 0 then (5000 : Int) else hj).toNat
        ≤ u32sub now (if s.hardJamStartMs = 0 then now else s.hardJamStartMs))) :
    (softRatioOf (accumSoft s)
        < (if (if rt ≤ 0 then (1/4 : ℚ) else rt) > 1 then (1 : ℚ)
            else if rt ≤ 0 then (1/4 : ℚ) else rt) →
      (isJammed s rt hjThr sj hj ci gp now).2.softJamStartMs
          = (if s.softJamStartMs = 0 then now else s.softJamStartMs) ∧
      ((isJammed s rt hjThr sj hj ci gp now).1 = true ↔
        (MIN_SOFT_DEFICIT_MM ≤ softDeficitOf (accumSoft s) ∧
          (if sj ≤ 0 then (10000 : Int) else sj).toNat
            ≤ u32sub now (if s.softJamStartMs = 0 then now else s.softJamStartMs)))) ∧
    ((if (if rt ≤ 0 then (1/4 : ℚ) else rt) > 1 then (1 : ℚ)
        else if rt ≤ 0 then (1/4 : ℚ) else rt) ≤ softRatioOf (accumSoft s) →
      (isJammed s rt hjThr sj hj ci gp now).1 = false ∧
      (isJammed s rt hjThr sj hj ci gp now).2.softJamStartMs = 0 ∧
      (isJammed s rt hjThr sj hj ci gp now).2.softJamAccumExpectedMm = 0 ∧
      (isJammed s rt hjThr sj hj ci gp now).2.softJamAccumActualMm = 0 ∧
      (isJammed s rt hjThr sj hj ci gp now).2.softJamLastSampleMs
          = INVALID_SAMPLE_TIMESTAMP) ∧
    pollResults (mkSensor 0) c2Ops = [false, false, false, false, false, false] := by
  have hgate : ¬(s.initialized = false ∨ ci ≤ 0) := by
    rw [hinit]
    push_neg
    exact ⟨by simp, by omega⟩
  have hgrace' : ¬(gp > 0 ∧ u32sub now s.lastExpectedUpdateMs < gp) := by
    rcases hgrace with h | h
    · omega
    · omega
  have hadv' : MIN_EXPECTED_DELTA ≤ latestExpectedOf (noteDeficit s now) := hadv
  have hstart : (accumHard (noteDeficit s now)).hardJamStartMs = s.hardJamStartMs :=
    (accumHard_misc _).1
  have hm := accumHard_misc (noteDeficit s now)
  suffices h : ∃ u',
      isJammed s rt hjThr sj hj ci gp now
        = softPhase u'
            (if (if rt ≤ 0 then (1/4 : ℚ) else rt) > 1 then (1 : ℚ)
              else if rt ≤ 0 then (1/4 : ℚ) else rt)
            (if sj ≤ 0 then (10000 : Int) else sj).toNat now ∧
      u'.samples = s.samples ∧ u'.sampleCount = s.sampleCount ∧
      u'.nextSampleIndex = s.nextSampleIndex ∧
      u'.softJamStartMs = s.softJamStartMs ∧
      u'.softJamAccumExpectedMm = s.softJamAccumExpectedMm ∧
      u'.softJamAccumActualMm = s.softJamAccumActualMm ∧
      u'.softJamLastSampleMs = s.softJamLastSampleMs by
    obtain ⟨u', heq, h1, h2, h3, h4, h5, h6, h7⟩ := h
    have hs := softPhase_spec u' s
      (if (if rt ≤ 0 then (1/4 : ℚ) else rt) > 1 then (1 : ℚ)
        else if rt ≤ 0 then (1/4 : ℚ) else rt)
      (if sj ≤ 0 then (10000 : Int) else sj).toNat now h1 h2 h3 h4 h5 h6 h7
    refine ⟨?_, ?_, by decide⟩
    · intro hlow
      rw [heq]
      exact hs.1 hlow
    · intro hhigh
      rw [heq]
      exact hs.2 hhigh
  by_cases hA : hardRatioOf (accumHard s) < HARD_PASS_RATIO_THRESHOLD
  · by_cases hz : s.hardJamStartMs = 0
    · refine ⟨{ accumHard (noteDeficit s now) with hardJamStartMs := now }, ?_,
        hm.2.2.2.2.2.1, hm.2.2.2.2.2.2.1, hm.2.2.2.2.2.2.2.1,
        hm.2.1, hm.2.2.1, hm.2.2.2.1, hm.2.2.2.2.1⟩
      have hne : ¬((if hj ≤ 0 then (5000 : Int) else hj).toNat ≤ u32sub now now) := by
        intro hb
        exact hnotHard ⟨hA, by rw [if_pos hz]; exact hb⟩
      simp only [isJammed]
      rw [if_neg hgate]
      try dsimp only
      rw [if_neg hgrace']
      simp only [jamDetect]
      try dsimp only
      rw [if_pos hadv']
      simp only [hardPhase]
      try dsimp only
      rw [if_pos (by rw [hardRatioOf_accumHard_noteDeficit]; exact hA)]
      rw [hstart]
      simp only [if_pos hz]
      try dsimp only
      rw [if_neg hne]
    · refine ⟨accumHard (noteDeficit s now), ?_,
        hm.2.2.2.2.2.1, hm.2.2.2.2.2.2.1, hm.2.2.2.2.2.2.2.1,
        hm.2.1, hm.2.2.1, hm.2.2.2.1, hm.2.2.2.2.1⟩
      have hne : ¬((if hj ≤ 0 then (5000 : Int) else hj).toNat
          ≤ u32sub now s.hardJamStartMs) := by
        intro hb
        exact hnotHard ⟨hA, by rw [if_neg hz]; exact hb⟩
      simp only [isJammed]
      rw [if_neg hgate]
      try dsimp only
      rw [if_neg hgrace']
      simp only [jamDetect]
      try dsimp only
      rw [if_pos hadv']
      simp only [hardPhase]
      try dsimp only
      rw [if_pos (by rw [hardRatioOf_accumHard_noteDeficit]; exact hA)]
      rw [hstart]
      simp only [if_neg hz]
      rw [hstart]
      rw [if_neg hne]
  · refine ⟨clearHard (accumHard (noteDeficit s now)), ?_,
      hm.2.2.2.2.2.1, hm.2.2.2.2.2.2.1, hm.2.2.2.2.2.2.2.1,
      hm.2.1, hm.2.2.1, hm.2.2.2.1, hm.2.2.2.2.1⟩
    simp only [isJammed]
    rw [if_neg hgate]
    try dsimp only
    rw [if_neg hgrace']
    simp only [jamDetect]
    try dsimp only
    rw [if_pos hadv']
    simp only [hardPhase]
    try dsimp only
    rw [if_neg (by rw [hardRatioOf_accumHard_noteDeficit]; exact hA)]

/-- The warm-up prefix of the transient-spike scenario: two normal-flow
intervals, then the 15 % interval, right before its poll. -/
def c2Warm : List Op :=
  [ .update 0 traceBase
  , .update 20 (traceBase+1000), .pulse 20, .poll (1/4) 10 3000 2000 1000 0 (traceBase+1500)
  , .update 40 (traceBase+2000), .pulse 20, .poll (1/4) 10 3000 2000 1000 0 (traceBase+2500)
  , .update 60 (traceBase+3000), .pulse 3 ]

set_option maxRecDepth 10000 in
/-- Witness for C2: at the poll right after the 15 % interval, the soft
ratio (0.15) is below the 0.25 threshold, so the soft timer starts at
this poll — and the verdict is still `false` because the timer has not
yet run `softJamTimeMs`. -/
theorem soft_jam_detection_witness :
    (isJammed (runOps (mkSensor 0) c2Warm)
        (1/4) 10 3000 2000 1000 0 (traceBase+3500)).2.softJamStartMs
      = traceBase+3500 ∧
    (isJammed (runOps (mkSensor 0) c2Warm)
        (1/4) 10 3000 2000 1000 0 (traceBase+3500)).1 = false := by
  have h := (soft_jam_detection (runOps (mkSensor 0) c2Warm)
    (1/4) 10 3000 2000 1000 0 (traceBase+3500)
    (by decide) (by norm_num) (Or.inl rfl) (by decide) (by decide)).1 (by decide)
  have hne : ¬(MIN_SOFT_DEFICIT_MM
        ≤ softDeficitOf (accumSoft (runOps (mkSensor 0) c2Warm)) ∧
      (if (3000 : Int) ≤ 0 then (10000 : Int) else 3000).toNat
        ≤ u32sub (traceBase+3500)
            (if (runOps (mkSensor 0) c2Warm).softJamStartMs = 0 then traceBase+3500
              else (runOps (mkSensor 0) c2Warm).softJamStartMs)) := by decide
  constructor
  · rw [h.1]
    decide
  · cases hq : (isJammed (runOps (mkSensor 0) c2Warm)
        (1/4) 10 3000 2000 1000 0 (traceBase+3500)).1 with
    | false => rfl
    | true => exact (hne (h.2.mp hq)).elim

/-! ## Supporting lemmas for C9: stability of a poll's verdict under
re-polling -/

/-- The latest-sample index only depends on the buffer bookkeeping. -/
theorem latestSampleIndexInt_congr (w v : SensorState)
    (hc : w.sampleCount = v.sampleCount)
    (hn : w.nextSampleIndex = v.nextSampleIndex) :
    latestSampleIndexInt w = latestSampleIndexInt v := by
  unfold latestSampleIndexInt
  rw [hc, hn]

/-- The latest expected delta only depends on the buffer. -/
theorem latestExpectedOf_congr (w v : SensorState)
    (hsam : w.samples = v.samples) (hc : w.sampleCount = v.sampleCount)
    (hn : w.nextSampleIndex = v.nextSampleIndex) :
    latestExpectedOf w = latestExpectedOf v := by
  unfold latestExpectedOf
  rw [latestSampleIndexInt_congr w v hc hn, hsam]

/-- Hard accumulation is stable: on a state whose buffer matches `v` and
whose hard accumulators already hold the values produced by accumulating
on `v`, accumulating again changes nothing (the last-consumed timestamp
blocks double counting). -/
theorem accumHard_stable (w v : SensorState)
    (hsam : w.samples = v.samples) (hc : w.sampleCount = v.sampleCount)
    (hn : w.nextSampleIndex = v.nextSampleIndex)
    (hacc : w.hardJamAccumExpectedMm = (accumHard v).hardJamAccumExpectedMm)
    (hacta : w.hardJamAccumActualMm = (accumHard v).hardJamAccumActualMm)
    (hlast : w.hardJamLastSampleMs = (accumHard v).hardJamLastSampleMs) :
    (accumHard w).hardJamAccumExpectedMm = (accumHard v).hardJamAccumExpectedMm ∧
    (accumHard w).hardJamAccumActualMm = (accumHard v).hardJamAccumActualMm ∧
    (accumHard w).hardJamLastSampleMs = (accumHard v).hardJamLastSampleMs := by
  have hidx := latestSampleIndexInt_congr w v hc hn
  by_cases hg : 0 ≤ latestSampleIndexInt v ∧ latestSampleIndexInt v < (MAX_SAMPLES : Int)
  · by_cases ht : (v.samples.getD (latestSampleIndexInt v).toNat zeroSample).timestampMs
        ≠ INVALID_SAMPLE_TIMESTAMP ∧
        (v.samples.getD (latestSampleIndexInt v).toNat zeroSample).timestampMs
        ≠ v.hardJamLastSampleMs
    · have hv : accumHard v = { v with
          hardJamAccumExpectedMm := v.hardJamAccumExpectedMm
            + (v.samples.getD (latestSampleIndexInt v).toNat zeroSample).expectedMm
          hardJamAccumActualMm := v.hardJamAccumActualMm
            + (v.samples.getD (latestSampleIndexInt v).toNat zeroSample).actualMm
          hardJamLastSampleMs :=
            (v.samples.getD (latestSampleIndexInt v).toNat zeroSample).timestampMs } := by
        unfold accumHard
        dsimp only
        rw [if_pos hg, if_pos ht]
      have hlast2 : w.hardJamLastSampleMs
          = (v.samples.getD (latestSampleIndexInt v).toNat zeroSample).timestampMs := by
        rw [hlast, hv]
      have hw : accumHard w = w := by
        unfold accumHard
        dsimp only
        rw [hidx, hsam, hlast2]
        rw [if_pos hg]
        rw [if_neg (by simp)]
      rw [hw]
      exact ⟨hacc, hacta, hlast⟩
    · have hv : (accumHard v).hardJamAccumExpectedMm = v.hardJamAccumExpectedMm ∧
          (accumHard v).hardJamAccumActualMm = v.hardJamAccumActualMm ∧
          (accumHard v).hardJamLastSampleMs = v.hardJamLastSampleMs := by
        unfold accumHard
        dsimp only
        rw [if_pos hg, if_neg ht]
        exact ⟨rfl, rfl, rfl⟩
      have hw : accumHard w = w := by
        unfold accumHard
        dsimp only
        rw [hidx, hsam, hlast, hv.2.2]
        rw [if_pos hg]
        rw [if_neg ht]
      rw [hw]
      exact ⟨hacc, hacta, hlast⟩
  · have hv : accumHard v = v := by
      unfold accumHard
      dsimp only
      rw [if_neg hg]
    have hw : accumHard w = w := by
      unfold accumHard
      dsimp only
      rw [hidx]
      rw [if_neg hg]
    rw [hw]
    exact ⟨hacc, hacta, hlast⟩

/-- Soft accumulation is stable in the same sense. -/
theorem accumSoft_stable (w v : SensorState)
    (hsam : w.samples = v.samples) (hc : w.sampleCount = v.sampleCount)
    (hn : w.nextSampleIndex = v.nextSampleIndex)
    (hacc : w.softJamAccumExpectedMm = (accumSoft v).softJamAccumExpectedMm)
    (hacta : w.softJamAccumActualMm = (accumSoft v).softJamAccumActualMm)
    (hlast : w.softJamLastSampleMs = (accumSoft v).softJamLastSampleMs) :
    (accumSoft w).softJamAccumExpectedMm = (accumSoft v).softJamAccumExpectedMm ∧
    (accumSoft w).softJamAccumActualMm = (accumSoft v).softJamAccumActualMm ∧
    (accumSoft w).softJamLastSampleMs = (accumSoft v).softJamLastSampleMs := by
  have hidx := latestSampleIndexInt_congr w v hc hn
  by_cases hg : 0 ≤ latestSampleIndexInt v ∧ latestSampleIndexInt v < (MAX_SAMPLES : Int)
  · by_cases ht : (v.samples.getD (latestSampleIndexInt v).toNat zeroSample).timestampMs
        ≠ INVALID_SAMPLE_TIMESTAMP ∧
        (v.samples.getD (latestSampleIndexInt v).toNat zeroSample).timestampMs
        ≠ v.softJamLastSampleMs
    · have hv : accumSoft v = { v with
          softJamAccumExpectedMm := v.softJamAccumExpectedMm
            + (v.samples.getD (latestSampleIndexInt v).toNat zeroSample).expectedMm
          softJamAccumActualMm := v.softJamAccumActualMm
            + (v.samples.getD (latestSampleIndexInt v).toNat zeroSample).actualMm
          softJamLastSampleMs :=
            (v.samples.getD (latestSampleIndexInt v).toNat zeroSample).timestampMs } := by
        unfold accumSoft
        dsimp only
        rw [if_pos hg, if_pos ht]
      have hlast2 : w.softJamLastSampleMs
          = (v.samples.getD (latestSampleIndexInt v).toNat zeroSample).timestampMs := by
        rw [hlast, hv]
      have hw : accumSoft w = w := by
        unfold accumSoft
        dsimp only
        rw [hidx, hsam, hlast2]
        rw [if_pos hg]
        rw [if_neg (by simp)]
      rw [hw]
      exact ⟨hacc, hacta, hlast⟩
    · have hv : (accumSoft v).softJamAccumExpectedMm = v.softJamAccumExpectedMm ∧
          (accumSoft v).softJamAccumActualMm = v.softJamAccumActualMm ∧
          (accumSoft v).softJamLastSampleMs = v.softJamLastSampleMs := by
        unfold accumSoft
        dsimp only
        rw [if_pos hg, if_neg ht]
        exact ⟨rfl, rfl, rfl⟩
      have hw : accumSoft w = w := by
        unfold accumSoft
        dsimp only
        rw [hidx, hsam, hlast, hv.2.2]
        rw [if_pos hg]
        rw [if_neg ht]
      rw [hw]
      exact ⟨hacc, hacta, hlast⟩
  · have hv : accumSoft v = v := by
      unfold accumSoft
      dsimp only
      rw [if_neg hg]
    have hw : accumSoft w = w := by
      unfold accumSoft
      dsimp only
      rw [hidx]
      rw [if_neg hg]
    rw [hw]
    exact ⟨hacc, hacta, hlast⟩

/-- The soft block leaves the tracker bookkeeping fields unchanged. -/
theorem softPhase_misc (u : SensorState) (rt : ℚ) (sjN now : Nat) :
    (softPhase u rt sjN now).2.samples = u.samples ∧
    (softPhase u rt sjN now).2.sampleCount = u.sampleCount ∧
    (softPhase u rt sjN now).2.nextSampleIndex = u.nextSampleIndex ∧
    (softPhase u rt sjN now).2.initialized = u.initialized ∧
    (softPhase u rt sjN now).2.lastExpectedUpdateMs = u.lastExpectedUpdateMs := by
  have h := accumSoft_misc u
  unfold softPhase clearSoft
  try dsimp only
  split_ifs <;>
    exact ⟨h.2.2.2.2.2.1, h.2.2.2.2.2.2.1, h.2.2.2.2.2.2.2.1,
      h.2.2.2.2.2.2.2.2.1, h.2.2.2.2.2.2.2.2.2⟩

/-- When the soft ratio is bad, the soft block keeps the freshly
accumulated soft accumulator values in its output state. -/
theorem softPhase_accums (u : SensorState) (rt : ℚ) (sjN now : Nat)
    (hlow : softRatioOf (accumSoft u) < rt) :
    (softPhase u rt sjN now).2.softJamAccumExpectedMm
        = (accumSoft u).softJamAccumExpectedMm ∧
    (softPhase u rt sjN now).2.softJamAccumActualMm
        = (accumSoft u).softJamAccumActualMm ∧
    (softPhase u rt sjN now).2.softJamLastSampleMs
        = (accumSoft u).softJamLastSampleMs := by
  unfold softPhase
  try dsimp only
  rw [if_pos hlow]
  split_ifs <;> exact ⟨rfl, rfl, rfl⟩

/-- When the gates pass, extrusion is advancing and the hard trigger
condition (accumulated ratio below 0.10 with an elapsed timer) holds,
`isJammed` returns `true` with exactly the accumulated state and the
started timer. -/
theorem isJammed_hard_trigger (s : SensorState) (rt hjThr : ℚ)
    (sj hj ci : Int) (gp now : Nat)
    (hinit : s.initialized = true) (hci : 0 < ci)
    (hgrace : gp = 0 ∨ gp ≤ u32sub now s.lastExpectedUpdateMs)
    (hadv : MIN_EXPECTED_DELTA ≤ latestExpectedOf s)
    (hA : hardRatioOf (accumHard s) < HARD_PASS_RATIO_THRESHOLD)
    (hB : (if hj ≤ 0 then (5000 : Int) else hj).toNat
        ≤ u32sub now (if s.hardJamStartMs = 0 then now else s.hardJamStartMs)) :
    isJammed s rt hjThr sj hj ci gp now
      = (true, { accumHard (noteDeficit s now) with
          hardJamStartMs := if s.hardJamStartMs = 0 then now else s.hardJamStartMs }) := by
  have hgate : ¬(s.initialized = false ∨ ci ≤ 0) := by
    rw [hinit]
    push_neg
    exact ⟨by simp, by omega⟩
  have hgrace' : ¬(gp > 0 ∧ u32sub now s.lastExpectedUpdateMs < gp) := by
    rcases hgrace with h | h
    · omega
    · omega
  have hadv' : MIN_EXPECTED_DELTA ≤ latestExpectedOf (noteDeficit s now) := hadv
  have hstart : (accumHard (noteDeficit s now)).hardJamStartMs = s.hardJamStartMs :=
    (accumHard_misc _).1
  simp only [isJammed]
  rw [if_neg hgate]
  try dsimp only
  rw [if_neg hgrace']
  simp only [jamDetect]
  try dsimp only
  rw [if_pos hadv']
  simp only [hardPhase]
  try dsimp only
  rw [if_pos (by rw [hardRatioOf_accumHard_noteDeficit]; exact hA)]
  rw [hstart]
  by_cases hz : s.hardJamStartMs = 0
  · simp only [if_pos hz]
    simp only [if_pos hz] at hB
    try dsimp only
    rw [if_pos hB]
  · simp only [if_neg hz]
    simp only [if_neg hz] at hB
    rw [hstart]
    rw [if_pos hB]
    rw [← hstart]

/-- When the gates pass, extrusion is advancing and the hard trigger
condition does not hold, `isJammed` runs the soft block on a state whose
buffer and soft streak fields are those of the input state. -/
theorem isJammed_soft_path (s : SensorState) (rt hjThr : ℚ)
    (sj hj ci : Int) (gp now : Nat)
    (hinit : s.initialized = true) (hci : 0 < ci)
    (hgrace : gp = 0 ∨ gp ≤ u32sub now s.lastExpectedUpdateMs)
    (hadv : MIN_EXPECTED_DELTA ≤ latestExpectedOf s)
    (hnotHard : ¬(hardRatioOf (accumHard s) < HARD_PASS_RATIO_THRESHOLD ∧
      (if hj ≤ 0 then (5000 : Int) else hj).toNat
        ≤ u32sub now (if s.hardJamStartMs = 0 then now else s.hardJamStartMs))) :
    ∃ u',
      isJammed s rt hjThr sj hj ci gp now
        = softPhase u'
            (if (if rt ≤ 0 then (1/4 : ℚ) else rt) > 1 then (1 : ℚ)
              else if rt ≤ 0 then (1/4 : ℚ) else rt)
            (if sj ≤ 0 then (10000 : Int) else sj).toNat now ∧
      u'.samples = s.samples ∧ u'.sampleCount = s.sampleCount ∧
      u'.nextSampleIndex = s.nextSampleIndex ∧
      u'.softJamStartMs = s.softJamStartMs ∧
      u'.softJamAccumExpectedMm = s.softJamAccumExpectedMm ∧
      u'.softJamAccumActualMm = s.softJamAccumActualMm ∧
      u'.softJamLastSampleMs = s.softJamLastSampleMs ∧
      u'.initialized = s.initialized ∧
      u'.lastExpectedUpdateMs = s.lastExpectedUpdateMs := by
  have hgate : ¬(s.initialized = false ∨ ci ≤ 0) := by
    rw [hinit]
    push_neg
    exact ⟨by simp, by omega⟩
  have hgrace' : ¬(gp > 0 ∧ u32sub now s.lastExpectedUpdateMs < gp) := by
    rcases hgrace with h | h
    · omega
    · omega
  have hadv' : MIN_EXPECTED_DELTA ≤ latestExpectedOf (noteDeficit s now) := hadv
  have hstart : (accumHard (noteDeficit s now)).hardJamStartMs = s.hardJamStartMs :=
    (accumHard_misc _).1
  have hm := accumHard_misc (noteDeficit s now)
  by_cases hA : hardRatioOf (accumHard s) < HARD_PASS_RATIO_THRESHOLD
  · by_cases hz : s.hardJamStartMs = 0
    · refine ⟨{ accumHard (noteDeficit s now) with hardJamStartMs := now }, ?_,
        hm.2.2.2.2.2.1, hm.2.2.2.2.2.2.1, hm.2.2.2.2.2.2.2.1,
        hm.2.1, hm.2.2.1, hm.2.2.2.1, hm.2.2.2.2.1,
        hm.2.2.2.2.2.2.2.2.1, hm.2.2.2.2.2.2.2.2.2⟩
      have hne : ¬((if hj ≤ 0 then (5000 : Int) else hj).toNat ≤ u32sub now now) := by
        intro hb
        exact hnotHard ⟨hA, by rw [if_pos hz]; exact hb⟩
      simp only [isJammed]
      rw [if_neg hgate]
      try dsimp only
      rw [if_neg hgrace']
      simp only [jamDetect]
      try dsimp only
      rw [if_pos hadv']
      simp only [hardPhase]
      try dsimp only
      rw [if_pos (by rw [hardRatioOf_accumHard_noteDeficit]; exact hA)]
      rw [hstart]
      simp only [if_pos hz]
      try dsimp only
      rw [if_neg hne]
    · refine ⟨accumHard (noteDeficit s now), ?_,
        hm.2.2.2.2.2.1, hm.2.2.2.2.2.2.1, hm.2.2.2.2.2.2.2.1,
        hm.2.1, hm.2.2.1, hm.2.2.2.1, hm.2.2.2.2.1,
        hm.2.2.2.2.2.2.2.2.1, hm.2.2.2.2.2.2.2.2.2⟩
      have hne : ¬((if hj ≤ 0 then (5000 : Int) else hj).toNat
          ≤ u32sub now s.hardJamStartMs) := by
        intro hb
        exact hnotHard ⟨hA, by rw [if_neg hz]; exact hb⟩
      simp only [isJammed]
      rw [if_neg hgate]
      try dsimp only
      rw [if_neg hgrace']
      simp only [jamDetect]
      try dsimp only
      rw [if_pos hadv']
      simp only [hardPhase]
      try dsimp only
      rw [if_pos (by rw [hardRatioOf_accumHard_noteDeficit]; exact hA)]
      rw [hstart]
      simp only [if_neg hz]
      rw [hstart]
      rw [if_neg hne]
  · refine ⟨clearHard (accumHard (noteDeficit s now)), ?_,
      hm.2.2.2.2.2.1, hm.2.2.2.2.2.2.1, hm.2.2.2.2.2.2.2.1,
      hm.2.1, hm.2.2.1, hm.2.2.2.1, hm.2.2.2.2.1,
      hm.2.2.2.2.2.2.2.2.1, hm.2.2.2.2.2.2.2.2.2⟩
    simp only [isJammed]
    rw [if_neg hgate]
    try dsimp only
    rw [if_neg hgrace']
    simp only [jamDetect]
    try dsimp only
    rw [if_pos hadv']
    simp only [hardPhase]
    try dsimp only
    rw [if_neg (by rw [hardRatioOf_accumHard_noteDeficit]; exact hA)]

set_option maxRecDepth 10000 in
/-- C9, counterexample.  In `c9Ops` a hard jam triggers at the third
poll (`true`), then filament moves again (one 20 mm interval fully
measured); the fourth poll — with no reset of any kind in between —
returns `false`: the classifier itself un-triggers the prior positive
result when the accumulated ratio recovers. -/
theorem jam_untriggers_counterexample :
    pollResults (mkSensor 0) c9Ops = [false, false, true, false] := by
  decide

/-- C9, amended.  Within a persisting streak the verdict is monotone:
if a poll returns `true` and the tracker is not mutated in between (no
update, pulse or reset — the streak condition persists), every later
poll with the same parameters also returns `true`.  Un-triggering
happens only through a state change: ratio recovery via new samples or
pulses, a non-advancing latest sample, or an external reset.  (The
bounds on the stored timestamps say that the recorded times lie in the
past of `now`, as on a monotonically sampled clock without wrap.) -/
theorem jam_verdict_persists (s s' : SensorState) (rt hjThr : ℚ)
    (sj hj ci : Int) (gp now now' : Nat)
    (h1 : isJammed s rt hjThr sj hj ci gp now = (true, s'))
    (h2 : now ≤ now')
    (hlu : s.lastExpectedUpdateMs ≤ now)
    (hhs : s.hardJamStartMs ≤ now)
    (hss : s.softJamStartMs ≤ now) :
    (isJammed s' rt hjThr sj hj ci gp now').1 = true := by
  have hgate : ¬(s.initialized = false ∨ ci ≤ 0) := by
    intro hor
    unfold isJammed at h1
    rw [if_pos hor] at h1
    simp at h1
  have hinit : s.initialized = true := by
    cases hval : s.initialized
    · exact absurd (Or.inl hval) hgate
    · rfl
  have hci : 0 < ci := by
    by_contra hc
    exact hgate (Or.inr (by omega))
  have hgrace : gp = 0 ∨ gp ≤ u32sub now s.lastExpectedUpdateMs := by
    by_contra hg
    push_neg at hg
    unfold isJammed at h1
    rw [if_neg hgate] at h1
    try dsimp only at h1
    rw [if_pos ⟨Nat.pos_of_ne_zero hg.1, hg.2⟩] at h1
    simp at h1
  have hgrace' : ¬(gp > 0 ∧ u32sub now s.lastExpectedUpdateMs < gp) := by
    rcases hgrace with h | h
    · omega
    · omega
  have hadv : MIN_EXPECTED_DELTA ≤ latestExpectedOf s := by
    by_contra hv
    unfold isJammed at h1
    rw [if_neg hgate] at h1
    try dsimp only at h1
    rw [if_neg hgrace'] at h1
    simp only [jamDetect] at h1
    try dsimp only at h1
    rw [if_neg (fun hx : MIN_EXPECTED_DELTA ≤ latestExpectedOf (noteDeficit s now) =>
      hv hx)] at h1
    simp at h1
  have hmono : ∀ b, b ≤ now → u32sub now b ≤ u32sub now' b := by
    intro b hb
    unfold u32sub
    rw [if_pos hb, if_pos (le_trans hb h2)]
    omega
  have hjNpos : 0 < (if hj ≤ 0 then (5000 : Int) else hj).toNat := by
    by_cases h : hj ≤ 0 <;> simp [h] <;> omega
  have sjNpos : 0 < (if sj ≤ 0 then (10000 : Int) else sj).toNat := by
    by_cases h : sj ≤ 0 <;> simp [h] <;> omega
  by_cases hAB : hardRatioOf (accumHard s) < HARD_PASS_RATIO_THRESHOLD ∧
      (if hj ≤ 0 then (5000 : Int) else hj).toNat
        ≤ u32sub now (if s.hardJamStartMs = 0 then now else s.hardJamStartMs)
  · -- the first call triggered (or could only have triggered) the hard condition
    obtain ⟨hA, hB⟩ := hAB
    have hstz : ¬((if s.hardJamStartMs = 0 then now else s.hardJamStartMs) = 0) := by
      intro h0
      by_cases hz : s.hardJamStartMs = 0
      · rw [if_pos hz] at h0
        rw [if_pos hz, h0] at hB
        unfold u32sub at hB
        simp at hB
        omega
      · rw [if_neg hz] at h0
        exact hz h0
    have hstle : (if s.hardJamStartMs = 0 then now else s.hardJamStartMs) ≤ now := by
      by_cases hz : s.hardJamStartMs = 0
      · rw [if_pos hz]
      · rw [if_neg hz]
        exact hhs
    have heq := isJammed_hard_trigger s rt hjThr sj hj ci gp now
      hinit hci hgrace hadv hA hB
    rw [heq] at h1
    have hs' : ({ accumHard (noteDeficit s now) with
        hardJamStartMs := if s.hardJamStartMs = 0 then now else s.hardJamStartMs }
          : SensorState) = s' := congrArg Prod.snd h1
    subst hs'
    have hm := accumHard_misc (noteDeficit s now)
    have hinitX : ({ accumHard (noteDeficit s now) with
        hardJamStartMs := if s.hardJamStartMs = 0 then now else s.hardJamStartMs }
          : SensorState).initialized = true :=
      (hm.2.2.2.2.2.2.2.2.1).trans hinit
    have hgraceX : gp = 0 ∨ gp ≤ u32sub now'
        ({ accumHard (noteDeficit s now) with
          hardJamStartMs := if s.hardJamStartMs = 0 then now else s.hardJamStartMs }
            : SensorState).lastExpectedUpdateMs := by
      rcases hgrace with h | h
      · exact Or.inl h
      · right
        have hXlu : ({ accumHard (noteDeficit s now) with
            hardJamStartMs := if s.hardJamStartMs = 0 then now else s.hardJamStartMs }
              : SensorState).lastExpectedUpdateMs = s.lastExpectedUpdateMs :=
          hm.2.2.2.2.2.2.2.2.2
        rw [hXlu]
        exact le_trans h (hmono _ hlu)
    have hadvX : MIN_EXPECTED_DELTA ≤ latestExpectedOf
        ({ accumHard (noteDeficit s now) with
          hardJamStartMs := if s.hardJamStartMs = 0 then now else s.hardJamStartMs }
            : SensorState) := by
      rw [latestExpectedOf_congr
        ({ accumHard (noteDeficit s now) with
          hardJamStartMs := if s.hardJamStartMs = 0 then now else s.hardJamStartMs }
            : SensorState) s hm.2.2.2.2.2.1 hm.2.2.2.2.2.2.1
        hm.2.2.2.2.2.2.2.1]
      exact hadv
    have hstable := accumHard_stable
      ({ accumHard (noteDeficit s now) with
        hardJamStartMs := if s.hardJamStartMs = 0 then now else s.hardJamStartMs }
          : SensorState) s
      hm.2.2.2.2.2.1 hm.2.2.2.2.2.2.1 hm.2.2.2.2.2.2.2.1
      (accumHard_noteDeficit s now).1 (accumHard_noteDeficit s now).2.1
      (accumHard_noteDeficit s now).2.2
    have hAX : hardRatioOf (accumHard
        ({ accumHard (noteDeficit s now) with
          hardJamStartMs := if s.hardJamStartMs = 0 then now else s.hardJamStartMs }
            : SensorState)) < HARD_PASS_RATIO_THRESHOLD := by
      have : hardRatioOf (accumHard
          ({ accumHard (noteDeficit s now) with
            hardJamStartMs := if s.hardJamStartMs = 0 then now else s.hardJamStartMs }
              : SensorState)) = hardRatioOf (accumHard s) := by
        unfold hardRatioOf
        rw [hstable.1, hstable.2.1]
      rw [this]
      exact hA
    have hBX : (if hj ≤ 0 then (5000 : Int) else hj).toNat
        ≤ u32sub now' (if ({ accumHard (noteDeficit s now) with
            hardJamStartMs := if s.hardJamStartMs = 0 then now else s.hardJamStartMs }
              : SensorState).hardJamStartMs = 0 then now'
          else ({ accumHard (noteDeficit s now) with
            hardJamStartMs := if s.hardJamStartMs = 0 then now else s.hardJamStartMs }
              : SensorState).hardJamStartMs) := by
      rw [if_neg hstz]
      exact le_trans hB (hmono _ hstle)
    have heq2 := isJammed_hard_trigger _ rt hjThr sj hj ci gp now'
      hinitX hci hgraceX hadvX hAX hBX
    rw [heq2]
  · -- the first call went through the soft block
    obtain ⟨u', hequ, e1, e2, e3, e4, e5, e6, e7, e8, e9⟩ :=
      isJammed_soft_path s rt hjThr sj hj ci gp now hinit hci hgrace hadv hAB
    rw [hequ] at h1
    have hsp := softPhase_spec u' s
      (if (if rt ≤ 0 then (1/4 : ℚ) else rt) > 1 then (1 : ℚ)
        else if rt ≤ 0 then (1/4 : ℚ) else rt)
      (if sj ≤ 0 then (10000 : Int) else sj).toNat now e1 e2 e3 e4 e5 e6 e7
    have hv : (softPhase u'
        (if (if rt ≤ 0 then (1/4 : ℚ) else rt) > 1 then (1 : ℚ)
          else if rt ≤ 0 then (1/4 : ℚ) else rt)
        (if sj ≤ 0 then (10000 : Int) else sj).toNat now).1 = true :=
      congrArg Prod.fst h1
    by_cases hS : softRatioOf (accumSoft s)
        < (if (if rt ≤ 0 then (1/4 : ℚ) else rt) > 1 then (1 : ℚ)
            else if rt ≤ 0 then (1/4 : ℚ) else rt)
    · have hiff := (hsp.1 hS).2
      obtain ⟨hdef, htime⟩ := hiff.mp hv
      have hstSz : ¬((if s.softJamStartMs = 0 then now else s.softJamStartMs) = 0) := by
        intro h0
        by_cases hz : s.softJamStartMs = 0
        · rw [if_pos hz] at h0
          rw [if_pos hz, h0] at htime
          unfold u32sub at htime
          simp at htime
          omega
        · rw [if_neg hz] at h0
          exact hz h0
      have hstSle : (if s.softJamStartMs = 0 then now else s.softJamStartMs) ≤ now := by
        by_cases hz : s.softJamStartMs = 0
        · rw [if_pos hz]
        · rw [if_neg hz]
          exact hss
      have hs' : (softPhase u'
          (if (if rt ≤ 0 then (1/4 : ℚ) else rt) > 1 then (1 : ℚ)
            else if rt ≤ 0 then (1/4 : ℚ) else rt)
          (if sj ≤ 0 then (10000 : Int) else sj).toNat now).2 = s' :=
        congrArg Prod.snd h1
      subst hs'
      -- facts about the state the soft-triggering poll left behind
      have hmiscY := softPhase_misc u'
        (if (if rt ≤ 0 then (1/4 : ℚ) else rt) > 1 then (1 : ℚ)
          else if rt ≤ 0 then (1/4 : ℚ) else rt)
        (if sj ≤ 0 then (10000 : Int) else sj).toNat now
      have hSu : softRatioOf (accumSoft u')
          < (if (if rt ≤ 0 then (1/4 : ℚ) else rt) > 1 then (1 : ℚ)
              else if rt ≤ 0 then (1/4 : ℚ) else rt) := by
        have hcg := accumSoft_congr u' s e1 e2 e3 e5 e6 e7
        have : softRatioOf (accumSoft u') = softRatioOf (accumSoft s) := by
          unfold softRatioOf
          rw [hcg.1, hcg.2.1]
        rw [this]
        exact hS
      have haccY := softPhase_accums u'
        (if (if rt ≤ 0 then (1/4 : ℚ) else rt) > 1 then (1 : ℚ)
          else if rt ≤ 0 then (1/4 : ℚ) else rt)
        (if sj ≤ 0 then (10000 : Int) else sj).toNat now hSu
      have hcg := accumSoft_congr u' s e1 e2 e3 e5 e6 e7
      generalize hY : (softPhase u'
          (if (if rt ≤ 0 then (1/4 : ℚ) else rt) > 1 then (1 : ℚ)
            else if rt ≤ 0 then (1/4 : ℚ) else rt)
          (if sj ≤ 0 then (10000 : Int) else sj).toNat now).2 = Y at *
      have hinitY : Y.initialized = true := by
        rw [hmiscY.2.2.2.1, e8]
        exact hinit
      have hgraceY : gp = 0 ∨ gp ≤ u32sub now' Y.lastExpectedUpdateMs := by
        rcases hgrace with h | h
        · exact Or.inl h
        · right
          rw [hmiscY.2.2.2.2, e9]
          exact le_trans h (hmono _ hlu)
      have hadvY : MIN_EXPECTED_DELTA ≤ latestExpectedOf Y := by
        rw [latestExpectedOf_congr Y s (hmiscY.1.trans e1) (hmiscY.2.1.trans e2)
          (hmiscY.2.2.1.trans e3)]
        exact hadv
      have hsamY : Y.samples = s.samples := hmiscY.1.trans e1
      have hcY : Y.sampleCount = s.sampleCount := hmiscY.2.1.trans e2
      have hnY : Y.nextSampleIndex = s.nextSampleIndex := hmiscY.2.2.1.trans e3
      have haccYs : Y.softJamAccumExpectedMm = (accumSoft s).softJamAccumExpectedMm :=
        haccY.1.trans hcg.1
      have hactYs : Y.softJamAccumActualMm = (accumSoft s).softJamAccumActualMm :=
        haccY.2.1.trans hcg.2.1
      have hlastYs : Y.softJamLastSampleMs = (accumSoft s).softJamLastSampleMs :=
        haccY.2.2.trans hcg.2.2
      have hstYs : Y.softJamStartMs
          = (if s.softJamStartMs = 0 then now else s.softJamStartMs) :=
        (hsp.1 hS).1
      have hstableS := accumSoft_stable Y s hsamY hcY hnY haccYs hactYs hlastYs
      by_cases hAB2 : hardRatioOf (accumHard Y) < HARD_PASS_RATIO_THRESHOLD ∧
          (if hj ≤ 0 then (5000 : Int) else hj).toNat
            ≤ u32sub now' (if Y.hardJamStartMs = 0 then now' else Y.hardJamStartMs)
      · have heq2 := isJammed_hard_trigger Y rt hjThr sj hj ci gp now'
          hinitY hci hgraceY hadvY hAB2.1 hAB2.2
        rw [heq2]
      · obtain ⟨u'', heq2, f1, f2, f3, f4, f5, f6, f7, f8, f9⟩ :=
          isJammed_soft_path Y rt hjThr sj hj ci gp now'
            hinitY hci hgraceY hadvY hAB2
        rw [heq2]
        have hsp2 := softPhase_spec u'' Y
          (if (if rt ≤ 0 then (1/4 : ℚ) else rt) > 1 then (1 : ℚ)
            else if rt ≤ 0 then (1/4 : ℚ) else rt)
          (if sj ≤ 0 then (10000 : Int) else sj).toNat now' f1 f2 f3 f4 f5 f6 f7
        have hratioY : softRatioOf (accumSoft Y) = softRatioOf (accumSoft s) := by
          unfold softRatioOf
          rw [hstableS.1, hstableS.2.1]
        have hdefY : softDeficitOf (accumSoft Y) = softDeficitOf (accumSoft s) := by
          unfold softDeficitOf
          rw [hstableS.1, hstableS.2.1]
        have hSY : softRatioOf (accumSoft Y)
            < (if (if rt ≤ 0 then (1/4 : ℚ) else rt) > 1 then (1 : ℚ)
                else if rt ≤ 0 then (1/4 : ℚ) else rt) := by
          rw [hratioY]
          exact hS
        refine ((hsp2.1 hSY).2).mpr ⟨?_, ?_⟩
        · rw [hdefY]
          exact hdef
        · rw [hstYs, if_neg hstSz]
          exact le_trans htime (hmono _ hstSle)
    · rw [(hsp.2 (not_lt.mp hS)).1] at hv
      simp at hv

set_option maxRecDepth 10000 in
/-- Witness for the amended C9: the hard-jam scenario's triggering poll
returns `true`, and re-polling the returned state one second later —
with no tracker mutation in between — returns `true` again. -/
theorem jam_verdict_persists_witness :
    (isJammed
      (isJammed (runOps (mkSensor 0) c1Warm)
        (1/4) 10 10000 2000 1000 0 (traceBase+3500)).2
      (1/4) 10 10000 2000 1000 0 (traceBase+4500)).1 = true := by
  exact jam_verdict_persists (runOps (mkSensor 0) c1Warm)
    (isJammed (runOps (mkSensor 0) c1Warm)
      (1/4) 10 10000 2000 1000 0 (traceBase+3500)).2
    (1/4) 10 10000 2000 1000 0 (traceBase+3500) (traceBase+4500)
    (by decide) (by norm_num) (by decide) (by decide) (by decide)

end FilamentSensor
